import Mathlib

/-!
Verification development for the Surveillance Decode & Conflict Detection
Engine of the Air-Traffic-Controllers-Copilot repository.

The definitions below are shallow embeddings of the TypeScript sources:
 - `src/src/services/AsterixDecoder.ts`    (protocol decoder)
 - `src/src/services/RadarDataProcessor.ts` (track store)
 - the ConflictDetectionService unit       (trajectory prediction, pairwise
   conflict detection, conflict lifecycle)
 - the OpenAIService unit                  (resolution-suggestion collaborator)

Modelling conventions, used consistently:
 - JavaScript `Date` values are rational milliseconds (`ℚ`); all control-flow
   comparisons on times are therefore decidable.
 - Geometric quantities (latitude, longitude, altitude, distances) are real
   numbers (`ℝ`), so the trigonometric formulas of the source are exact.
 - Byte buffers are `List ℕ` with every byte < 256 supplied by the caller;
   reads are bounds-checked exactly where the source checks bounds, and a
   JavaScript `RangeError` on an out-of-range `Buffer.read*` is an `Except`
   error value.
 - A thrown JavaScript `Error` is an `Except.error`; a `try`/`catch` is a
   `match` on the `Except`.
-/

deriving instance DecidableEq for Except

namespace ATC

/-- `Math.atan2(y, x)`: the angle of the point `(x, y)`, in `(-π, π]`,
modelled by the complex argument. -/
noncomputable def atan2 (y x : ℝ) : ℝ := Complex.arg (⟨x, y⟩ : ℂ)

/-! ## Protocol decoder (`src/src/services/AsterixDecoder.ts`) -/

/-- Field types of `enum FieldType`. -/
inductive FieldType where
  | FIXED
  | VARIABLE
  | REPETITIVE
  | COMPOUND
deriving DecidableEq

/-- Decoded field payloads.  Each constructor mirrors the object literal
returned by the corresponding field decoder in the source. -/
inductive AsterixValue where
  | dataSource (sac sic : ℕ)
  | targetDescriptor (typ sim rdp spi rab tst : ℕ)
  | polarPosition (range azimuth : ℚ)
  | mode3A (validated garbled smoothed : Bool) (code : String) (codeOctal : ℕ)
  | level (validated garbled : Bool) (flightLevel altitude : ℚ)
  | address (addr : ℕ) (addrHex : String)
  | ident (callsign : String) (raw : List ℕ)
  | trackNum (n : ℕ)
  | wgs84 (latitude longitude : ℚ)
  | measuredLevel (flightLevel altitude : ℚ)
  | rawBytes (bytes : List ℕ)
deriving DecidableEq

/-- `Buffer.readUInt8(i)`: errors (JS `RangeError`) when out of range. -/
def readUInt8 (b : List ℕ) (i : ℕ) : Except Unit ℕ :=
  match b.get? i with
  | some v => .ok v
  | none => .error ()

/-- `Buffer.readUInt16BE(i)`. -/
def readUInt16BE (b : List ℕ) (i : ℕ) : Except Unit ℕ := do
  let hi ← readUInt8 b i
  let lo ← readUInt8 b (i + 1)
  .ok (hi * 256 + lo)

/-- `Buffer.readInt16BE(i)` (two's complement). -/
def readInt16BE (b : List ℕ) (i : ℕ) : Except Unit ℤ := do
  let u ← readUInt16BE b i
  .ok (if u < 32768 then (u : ℤ) else (u : ℤ) - 65536)

/-- `Buffer.readInt32BE(i)` (two's complement). -/
def readInt32BE (b : List ℕ) (i : ℕ) : Except Unit ℤ := do
  let b0 ← readUInt8 b i
  let b1 ← readUInt8 b (i + 1)
  let b2 ← readUInt8 b (i + 2)
  let b3 ← readUInt8 b (i + 3)
  let u := ((b0 * 256 + b1) * 256 + b2) * 256 + b3
  .ok (if u < 2147483648 then (u : ℤ) else (u : ℤ) - 4294967296)

/-- One hexadecimal digit, upper case. -/
def hexDigit (n : ℕ) : Char :=
  if n < 10 then Char.ofNat (48 + n) else Char.ofNat (55 + n)

/-- `n.toString(16).toUpperCase().padStart(width, '0')` for `n < 16 ^ width`. -/
def hexPad (width n : ℕ) : String :=
  String.mk ((List.range width).map (fun k => hexDigit (n / 16 ^ (width - 1 - k) % 16)))

/-- `n.toString(8).padStart(width, '0')` for `n < 8 ^ width`. -/
def octPad (width n : ℕ) : String :=
  String.mk ((List.range width).map (fun k => Char.ofNat (48 + n / 8 ^ (width - 1 - k) % 8)))

/-- The 6-bit character decode of I048/240 (one character, already extracted):
A–Z for 1–26, digits for 48–57, space for 32, anything else dropped. -/
def sixBitChar (c : ℕ) : List Char :=
  if 1 ≤ c ∧ c ≤ 26 then [Char.ofNat (c + 64)]
  else if 48 ≤ c ∧ c ≤ 57 then [Char.ofNat c]
  else if c = 32 then [' ']
  else []

/-- The 6-bit extraction loop of the I048/240 decoder: for character `i`,
reads across the byte boundary exactly as the source does, guarded by
`data.length` checks (so it never errors). -/
def sixBitAt (data : List ℕ) (i : ℕ) : List Char :=
  let byteIndex := i * 6 / 8
  let bitOffset := i * 6 % 8
  if byteIndex < data.length then
    let b0 := data.getD byteIndex 0
    let c :=
      if bitOffset ≤ 2 then (b0 >>> (2 - bitOffset)) &&& 0x3F
      else
        let highBits := (b0 &&& ((1 <<< (8 - bitOffset)) - 1)) <<< (bitOffset - 2)
        let lowBits := if byteIndex + 1 < data.length then
            (data.getD (byteIndex + 1) 0 >>> (10 - bitOffset)) &&& ((1 <<< (bitOffset - 2)) - 1)
          else 0
        highBits ||| lowBits
    sixBitChar c
  else []

/-- I048/240 Aircraft Identification decoder (8 packed 6-bit characters,
followed by `.trim()`). -/
def decodeIdent (data : List ℕ) : Except Unit AsterixValue :=
  .ok (.ident (String.mk ((List.range 8).flatMap (sixBitAt data))).trim data)

/-- I048/010 and I062/010 Data Source Identifier decoder. -/
def decodeDataSource (data : List ℕ) : Except Unit AsterixValue := do
  let sac ← readUInt8 data 0
  let sic ← readUInt8 data 1
  .ok (.dataSource sac sic)

/-- I048/020 Target Report Descriptor decoder (first octet only, as in the
source; the slice may be longer for an extended variable field). -/
def decodeTargetDescriptor (data : List ℕ) : Except Unit AsterixValue := do
  let firstByte ← readUInt8 data 0
  .ok (.targetDescriptor ((firstByte >>> 5) &&& 0x07) ((firstByte >>> 4) &&& 0x01)
    ((firstByte >>> 3) &&& 0x01) ((firstByte >>> 2) &&& 0x01)
    ((firstByte >>> 1) &&& 0x01) (firstByte &&& 0x01))

/-- I048/040 Measured Position in Polar Coordinates decoder. -/
def decodePolar (data : List ℕ) : Except Unit AsterixValue := do
  let r ← readUInt16BE data 0
  let t ← readUInt16BE data 2
  .ok (.polarPosition ((r : ℚ) * (1 / 256)) ((t : ℚ) * (360 / 65536)))

/-- I048/070 Mode-3/A Code decoder. -/
def decodeMode3A (data : List ℕ) : Except Unit AsterixValue := do
  let raw ← readUInt16BE data 0
  let code := raw &&& 0x0FFF
  .ok (.mode3A ((raw >>> 15) &&& 1 = 1) ((raw >>> 14) &&& 1 = 1) ((raw >>> 13) &&& 1 = 1)
    (octPad 4 code) code)

/-- I048/090 Flight Level decoder.  The source applies the sign-insensitive
masks `>> 15`, `>> 14`, `& 0x3FFF` to the value of `readInt16BE`, which
coincide with bit extraction from the unsigned 16-bit pattern. -/
def decodeFlightLevel (data : List ℕ) : Except Unit AsterixValue := do
  let u ← readUInt16BE data 0
  let fl : ℚ := ((u &&& 0x3FFF : ℕ) : ℚ) * (1 / 4)
  .ok (.level ((u >>> 15) &&& 1 = 1) ((u >>> 14) &&& 1 = 1) fl (fl * 100))

/-- I048/220 Aircraft Address decoder. -/
def decodeAddress (data : List ℕ) : Except Unit AsterixValue := do
  let b0 ← readUInt8 data 0
  let b1 ← readUInt8 data 1
  let b2 ← readUInt8 data 2
  let addr := (b0 <<< 16) ||| (b1 <<< 8) ||| b2
  .ok (.address addr (hexPad 6 addr))

/-- I062/040 Track Number decoder. -/
def decodeTrackNumber (data : List ℕ) : Except Unit AsterixValue := do
  let n ← readUInt16BE data 0
  .ok (.trackNum n)

/-- I062/105 WGS-84 Position decoder. -/
def decodeWgs84 (data : List ℕ) : Except Unit AsterixValue := do
  let lat ← readInt32BE data 0
  let lon ← readInt32BE data 4
  .ok (.wgs84 ((lat : ℚ) * (180 / 33554432)) ((lon : ℚ) * (180 / 33554432)))

/-- I062/136 Measured Flight Level decoder. -/
def decodeMeasuredLevel (data : List ℕ) : Except Unit AsterixValue := do
  let v ← readInt16BE data 0
  let fl : ℚ := (v : ℚ) * (1 / 4)
  .ok (.measuredLevel fl (fl * 100))

/-- I062/380 compound-field decoder of the source: returns the raw slice. -/
def decodeRaw (data : List ℕ) : Except Unit AsterixValue := .ok (.rawBytes data)

/-- `AsterixFieldDefinition`. -/
structure AsterixFieldDefinition where
  id : ℕ
  name : String
  type : FieldType
  length : Option ℕ
  decoder : List ℕ → Except Unit AsterixValue

/-- `AsterixCategory`. -/
structure AsterixCategory where
  number : ℕ
  name : String
  fields : List (ℕ × AsterixFieldDefinition)

/-- Association-list lookup, modelling `Map.get`. -/
def assocLookup {κ α : Type _} [DecidableEq κ] (m : List (κ × α)) (k : κ) : Option α :=
  (m.find? (fun p => decide (p.1 = k))).map (·.2)

/-- Association-list insert-or-replace, modelling `Map.set`. -/
def assocSet {κ α : Type _} [DecidableEq κ] (m : List (κ × α)) (k : κ) (v : α) :
    List (κ × α) :=
  if m.any (fun p => decide (p.1 = k)) then
    m.map (fun p => if p.1 = k then (k, v) else p)
  else m ++ [(k, v)]

/-- Association-list delete, modelling `Map.delete`. -/
def assocDelete {κ α : Type _} [DecidableEq κ] (m : List (κ × α)) (k : κ) : List (κ × α) :=
  m.filter (fun p => decide (p.1 ≠ k))

/-- Category 048 catalogue (`initializeCategory048`). -/
def cat048 : AsterixCategory :=
  { number := 48
    name := "Monoradar Target Reports"
    fields :=
      [ (0x010, ⟨0x010, "Data Source Identifier", .FIXED, some 2, decodeDataSource⟩)
      , (0x020, ⟨0x020, "Target Report Descriptor", .VARIABLE, none, decodeTargetDescriptor⟩)
      , (0x040, ⟨0x040, "Measured Position in Polar Coordinates", .FIXED, some 4, decodePolar⟩)
      , (0x070, ⟨0x070, "Mode-3/A Code in Octal Representation", .FIXED, some 2, decodeMode3A⟩)
      , (0x090, ⟨0x090, "Flight Level in Binary Representation", .FIXED, some 2, decodeFlightLevel⟩)
      , (0x220, ⟨0x220, "Aircraft Address", .FIXED, some 3, decodeAddress⟩)
      , (0x240, ⟨0x240, "Aircraft Identification", .FIXED, some 6, decodeIdent⟩) ] }

/-- Category 062 catalogue (`initializeCategory062`). -/
def cat062 : AsterixCategory :=
  { number := 62
    name := "System Track Data"
    fields :=
      [ (0x010, ⟨0x010, "Data Source Identifier", .FIXED, some 2, decodeDataSource⟩)
      , (0x040, ⟨0x040, "Track Number", .FIXED, some 2, decodeTrackNumber⟩)
      , (0x105, ⟨0x105, "Calculated Position in WGS-84 Coordinates", .FIXED, some 8, decodeWgs84⟩)
      , (0x136, ⟨0x136, "Measured Flight Level", .FIXED, some 2, decodeMeasuredLevel⟩)
      , (0x380, ⟨0x380, "Aircraft Derived Data", .COMPOUND, none, decodeRaw⟩) ] }

/-- The registered category table (`this.categories`). -/
def categories (n : ℕ) : Option AsterixCategory :=
  if n = 48 then some cat048 else if n = 62 then some cat062 else none

/-- `mapFieldIndexToId`: FSPEC field index to field id.  Indices 26 and 27
are written `0x SP` / `0x RE` in the source, which is not a valid numeric
literal; they are modelled as absent, matching the `|| null` fallback. -/
def mapFieldIndexToId (index : ℕ) : Option ℕ :=
  match index with
  | 1 => some 0x010
  | 2 => some 0x020
  | 3 => some 0x040
  | 4 => some 0x070
  | 5 => some 0x090
  | 6 => some 0x130
  | 7 => some 0x220
  | 8 => some 0x240
  | 9 => some 0x250
  | 10 => some 0x161
  | 11 => some 0x042
  | 12 => some 0x200
  | 13 => some 0x170
  | 14 => some 0x210
  | 15 => some 0x030
  | 16 => some 0x080
  | 17 => some 0x100
  | 18 => some 0x110
  | 19 => some 0x120
  | 20 => some 0x230
  | 21 => some 0x260
  | 22 => some 0x055
  | 23 => some 0x050
  | 24 => some 0x065
  | 25 => some 0x060
  | _ => none

/-- The presence bits contributed by one FSPEC octet.  The source loop runs
`for (bit = 7; bit >= 1; bit--)` testing `1 << (bit - 1)`, so the masks
examined are `0x40 .. 0x01` (the top bit is never tested and the extension
bit doubles as a presence bit), with the running field index advanced once
per tested bit. -/
def fspecBitsOctet (b fieldIndex : ℕ) : List ℕ :=
  (List.range 7).filterMap (fun k =>
    if b &&& (1 <<< (6 - k)) ≠ 0 then mapFieldIndexToId (fieldIndex + k) else none)

/-- The `readFSPEC` do-while loop: consume octets while the extension bit is
set; error (`Incomplete FSPEC`) when the buffer ends first.  The loop is
driven by structural `fuel`; `readFSPEC` supplies `data.length + 1`, which the
bounds check in front of every read makes inexhaustible, so the `fuel = 0`
arm is unreachable. -/
def fspecLoop (data : List ℕ) : ℕ → ℕ → ℕ → ℕ → List ℕ → Except Unit (List ℕ × ℕ)
  | 0, _, _, _, _ => .error ()
  | fuel + 1, offset, pos, fieldIndex, acc =>
    if data.length ≤ offset + pos then .error ()
    else
      let b := data.getD (offset + pos) 0
      let acc2 := acc ++ fspecBitsOctet b fieldIndex
      if b &&& 1 = 1 then fspecLoop data fuel offset (pos + 1) (fieldIndex + 7) acc2
      else .ok (acc2, pos + 1)

/-- `readFSPEC(data, offset)`: present field ids (in FSPEC order) and FSPEC
length in bytes. -/
def readFSPEC (data : List ℕ) (offset : ℕ) : Except Unit (List ℕ × ℕ) :=
  fspecLoop data (data.length + 1) offset 0 1 []

/-- The length loop shared by `FieldType.VARIABLE` fields and compound
FSPECs: counts in-bounds octets up to and including the first octet whose
extension bit is clear.  Structural `fuel` as in `fspecLoop`; the `fuel = 0`
arm is unreachable for the `data.length + 1` supplied by `varLength`. -/
def varLengthLoop (data : List ℕ) : ℕ → ℕ → ℕ → ℕ
  | 0, _, k => k
  | fuel + 1, offset, k =>
    if data.length ≤ offset + k then k
    else if data.getD (offset + k) 0 &&& 1 = 1 then varLengthLoop data fuel offset (k + 1)
    else k + 1

/-- The variable-length / compound-FSPEC byte count starting at `offset`. -/
def varLength (data : List ℕ) (offset : ℕ) : ℕ :=
  varLengthLoop data (data.length + 1) offset 0

/-- `getCompoundFieldLength`: the compound FSPEC length plus a fixed 10-byte
payload allowance, clamped to the remaining buffer.  (With the registered
catalogues this branch is unreachable, because `mapFieldIndexToId` never
produces the id of a compound field; `data.length - offset` is truncated
subtraction here where the source would compute a negative number.) -/
def getCompoundFieldLength (data : List ℕ) (offset : ℕ) : ℕ :=
  min (data.length - offset) (varLength data offset + 10)

/-- `getFieldLength(fieldDef, data, offset)`. -/
def getFieldLength (fd : AsterixFieldDefinition) (data : List ℕ) (offset : ℕ) : ℕ :=
  match fd.type with
  | .FIXED => fd.length.getD 0
  | .VARIABLE => if data.length ≤ offset then 0 else varLength data offset
  | .REPETITIVE =>
    if data.length ≤ offset then 0
    else 1 + data.getD offset 0 * fd.length.getD 1
  | .COMPOUND => getCompoundFieldLength data offset

/-- The per-field loop of `decodeDataRecord`.  Returns the decoded
`(name, value)` pairs, the final offset, and — as verification
instrumentation of each `data.subarray(offset, offset + fieldLength)`
call — the list of `(offset, length)` slices passed to field decoders.
A field id with no catalogue entry is logged and skipped by `continue`
(offset unchanged); a field whose declared length exceeds the remaining
bytes, or whose decoder errors, is caught and skipped with `offset += 1`. -/
def decodeFieldsAux (cat : AsterixCategory) (data : List ℕ) :
    List ℕ → ℕ → List (String × AsterixValue) × ℕ × List (ℕ × ℕ)
  | [], offset => ([], offset, [])
  | fid :: rest, offset =>
    match assocLookup cat.fields fid with
    | none => decodeFieldsAux cat data rest offset
    | some fd =>
      let fieldLength := getFieldLength fd data offset
      if data.length < offset + fieldLength then
        decodeFieldsAux cat data rest (offset + 1)
      else
        let slice := (data.drop offset).take fieldLength
        match fd.decoder slice with
        | .error _ => decodeFieldsAux cat data rest (offset + 1)
        | .ok v =>
          let r := decodeFieldsAux cat data rest (offset + fieldLength)
          ((fd.name, v) :: r.1, r.2.1, (offset, fieldLength) :: r.2.2)

/-- `decode` failure taxonomy: the two `throw`s that can escape
`decodeMessage` (per-field errors are caught inside the loop). -/
inductive DecodeErr where
  | unsupportedCategory (n : ℕ)
  | incompleteFSPEC
deriving DecidableEq

/-- One decoded record, as assembled by `decodeDataRecord`. -/
structure SurveillanceRecord where
  category : ℕ
  fields : List (String × AsterixValue)
deriving DecidableEq

/-- `decodeDataRecord(category, data)` together with its slice trace. -/
def decodeDataRecord (cat : AsterixCategory) (data : List ℕ) :
    Except DecodeErr (SurveillanceRecord × ℕ × List (ℕ × ℕ)) :=
  match readFSPEC data 0 with
  | .error _ => .error .incompleteFSPEC
  | .ok (presentFields, fspecLength) =>
    let r := decodeFieldsAux cat data presentFields fspecLength
    .ok ({ category := cat.number, fields := r.1 }, r.2.1, r.2.2)

/-- `decodeMessage(category, data)` (the `try`/`catch` rethrows, so it is
transparent). -/
def decodeMessage (category : ℕ) (data : List ℕ) : Except DecodeErr SurveillanceRecord :=
  match categories category with
  | none => .error (.unsupportedCategory category)
  | some cat => (decodeDataRecord cat data).map (·.1)

/-! ## Shared domain types (`src/src/types/index.ts`) -/

/-- `Position3D` (the `timestamp` is a `Date`, i.e. rational milliseconds). -/
structure Position3D where
  latitude : ℝ
  longitude : ℝ
  altitude : ℝ
  timestamp : ℚ
deriving Inhabited

/-- `Vector3D` (metres per second). -/
structure Vector3D where
  x : ℝ
  y : ℝ
  z : ℝ

/-- `enum AircraftStatus`. -/
inductive AircraftStatus where
  | DEPARTING | ARRIVING | TAXIING | HOLDING | EMERGENCY | UNKNOWN
deriving DecidableEq

/-- `enum ConflictType`. -/
inductive ConflictType where
  | SEPARATION_VIOLATION | RUNWAY_INCURSION | ALTITUDE_CONFLICT | GROUND_CONFLICT
deriving DecidableEq

/-- `enum SeverityLevel`. -/
inductive SeverityLevel where
  | LOW | MEDIUM | HIGH | CRITICAL
deriving DecidableEq

/-- `enum ConflictStatus`. -/
inductive ConflictStatus where
  | DETECTED | ACKNOWLEDGED | RESOLVING | RESOLVED
deriving DecidableEq

/-- `interface Aircraft`.  The `flightPlan` and `clearances` fields are
omitted: no embedded operation reads them. -/
structure Aircraft where
  callsign : String
  currentPosition : Position3D
  velocity : Vector3D
  altitude : ℝ
  heading : ℝ
  squawkCode : String
  status : AircraftStatus
  lastUpdate : ℚ

/-- `interface ResolutionOption`. -/
structure ResolutionOption where
  id : String
  description : String
  instructions : List String
  estimatedResolutionTime : ℚ
  confidence : ℚ
deriving DecidableEq

/-- `interface Conflict`. -/
structure Conflict where
  id : String
  aircraftInvolved : List Aircraft
  conflictType : ConflictType
  timeToConflict : ℚ
  severity : SeverityLevel
  resolutionOptions : List ResolutionOption
  status : ConflictStatus
  detectedAt : ℚ

/-! ## Track store (`src/src/services/RadarDataProcessor.ts`) -/

/-- `interface TrackQuality`. -/
structure TrackQuality where
  confidence : ℚ
  positionAccuracy : ℚ
  velocityAccuracy : ℚ
  ageSeconds : ℚ
  sourceReliability : ℚ

/-- `interface RadarTrack` (the `mode3A` field is never assigned by the
source and is omitted). -/
structure RadarTrack where
  trackNumber : ℕ
  callsign : Option String
  position : Position3D
  velocity : Vector3D
  heading : ℝ
  squawkCode : Option String
  flightLevel : Option ℝ
  groundSpeed : Option ℝ
  lastUpdate : ℚ
  trackQuality : TrackQuality

/-- The `Partial<RadarTrack>` update produced by `extractTrackData`: exactly
the keys that method can assign.  `none` means the key is absent. -/
structure RadarTrackUpdate where
  trackNumber : Option ℕ
  callsign : Option String
  position : Option Position3D
  squawkCode : Option String
  flightLevel : Option ℝ

/-- JavaScript `a || b` on strings: the empty string is falsy. -/
def strOr (o : Option String) (d : String) : String :=
  match o with
  | some c => if c = "" then d else c
  | none => d

/-- `track.callsign || 'TRK' + trackNumber`: the aircraft-map key used by
`convertTracksToAircraft` and by stale-track deletion. -/
def trackAircraftKey (tr : RadarTrack) : String :=
  strOr tr.callsign ("TRK" ++ toString tr.trackNumber)

/-- `calculateVelocity(pos1, pos2, time1, time2)`.  Returns the zero vector
when the elapsed time is non-positive. -/
noncomputable def calculateVelocity (pos1 pos2 : Position3D) (time1 time2 : ℚ) : Vector3D :=
  let deltaTime : ℚ := (time2 - time1) / 1000
  if deltaTime ≤ 0 then ⟨0, 0, 0⟩
  else
    let deltaLat := (pos2.latitude - pos1.latitude) * 111320
    let deltaLon := (pos2.longitude - pos1.longitude) * 111320 *
      Real.cos (pos1.latitude * Real.pi / 180)
    let deltaAlt := pos2.altitude - pos1.altitude
    ⟨deltaLon / (deltaTime : ℝ), deltaLat / (deltaTime : ℝ), deltaAlt / (deltaTime : ℝ)⟩

/-- `calculateHeading(velocity)`: `Math.atan2(v.x, v.y) * 180 / Math.PI`,
then `+ 360` when negative. -/
noncomputable def calculateHeading (velocity : Vector3D) : ℝ :=
  let heading := atan2 velocity.x velocity.y * 180 / Real.pi
  if heading < 0 then heading + 360 else heading

/-- `calculateGroundSpeed(velocity)` of the radar processor (m/s). -/
noncomputable def calculateGroundSpeed (velocity : Vector3D) : ℝ :=
  Real.sqrt (velocity.x * velocity.x + velocity.y * velocity.y)

/-- `calculateTrackQuality(existing, update)` (only `existing` and the clock
are read). -/
def calculateTrackQuality (existing : RadarTrack) (now : ℚ) : TrackQuality :=
  let ageSeconds := (now - existing.lastUpdate) / 1000
  { confidence := max 0.1 (existing.trackQuality.confidence - ageSeconds * 0.01)
    positionAccuracy := existing.trackQuality.positionAccuracy
    velocityAccuracy := existing.trackQuality.velocityAccuracy
    ageSeconds := ageSeconds
    sourceReliability := existing.trackQuality.sourceReliability }

/-- The update branch of `updateRadarTrack`: spread-merge of the incoming
fields over the existing track, then velocity/heading/ground-speed
recomputation when the update carries a position. -/
noncomputable def mergeExistingTrack (existing : RadarTrack) (td : RadarTrackUpdate)
    (now : ℚ) : RadarTrack :=
  let base : RadarTrack :=
    { trackNumber := existing.trackNumber
      callsign := td.callsign.or existing.callsign
      position := td.position.getD existing.position
      velocity := existing.velocity
      heading := existing.heading
      squawkCode := td.squawkCode.or existing.squawkCode
      flightLevel := td.flightLevel.or existing.flightLevel
      groundSpeed := existing.groundSpeed
      lastUpdate := now
      trackQuality := calculateTrackQuality existing now }
  match td.position with
  | some newPos =>
    let velocity := calculateVelocity existing.position newPos existing.lastUpdate now
    { base with
        velocity := velocity
        heading := calculateHeading velocity
        groundSpeed := some (calculateGroundSpeed velocity) }
  | none => base

/-- The creation branch of `updateRadarTrack`. -/
def createTrack (n : ℕ) (td : RadarTrackUpdate) (now : ℚ) : RadarTrack :=
  { trackNumber := n
    callsign := td.callsign
    position := td.position.getD ⟨0, 0, 0, now⟩
    velocity := ⟨0, 0, 0⟩
    heading := 0
    squawkCode := td.squawkCode
    flightLevel := td.flightLevel
    groundSpeed := none
    lastUpdate := now
    trackQuality := { confidence := 0.8, positionAccuracy := 100, velocityAccuracy := 5,
                      ageSeconds := 0, sourceReliability := 0.9 } }

/-- `updateRadarTrack(trackData)` over the `radarTracks` map.  The guard
`if (!trackData.trackNumber) return` also rejects the falsy track number 0. -/
noncomputable def updateRadarTrack (tracks : List (ℕ × RadarTrack))
    (td : RadarTrackUpdate) (now : ℚ) : List (ℕ × RadarTrack) :=
  match td.trackNumber with
  | none => tracks
  | some n =>
    if n = 0 then tracks
    else
      match assocLookup tracks n with
      | some existing => assocSet tracks n (mergeExistingTrack existing td now)
      | none => assocSet tracks n (createTrack n td now)

/-- `determineAircraftStatus(track)`.  `!track.groundSpeed` is also true for
a ground speed of exactly 0, and `track.flightLevel &&` is false for a
flight level of exactly 0. -/
noncomputable def determineAircraftStatus (track : RadarTrack) : AircraftStatus :=
  match track.groundSpeed with
  | none => .UNKNOWN
  | some gs =>
    if gs = 0 then .UNKNOWN
    else if gs < 5 then .HOLDING
    else
      match track.flightLevel with
      | some fl =>
        if fl ≠ 0 ∧ fl < 1000 then (if gs > 50 then .DEPARTING else .TAXIING)
        else .ARRIVING
      | none => .ARRIVING

/-- The `Aircraft` object built for one track by `convertTracksToAircraft`
(`track.flightLevel || track.position.altitude` treats flight level 0 as
absent, and `track.squawkCode || '0000'` treats the empty string as absent). -/
noncomputable def trackToAircraft (track : RadarTrack) : Aircraft :=
  { callsign := trackAircraftKey track
    currentPosition := track.position
    velocity := track.velocity
    altitude :=
      match track.flightLevel with
      | some fl => if fl = 0 then track.position.altitude else fl
      | none => track.position.altitude
    heading := track.heading
    squawkCode := strOr track.squawkCode "0000"
    status := determineAircraftStatus track
    lastUpdate := track.lastUpdate }

/-- `convertTracksToAircraft()`: walks the track table, skips tracks older
than 30 seconds, and upserts the rest into the aircraft map keyed by
callsign; returns the built list and the updated map. -/
noncomputable def convertTracksToAircraft (now : ℚ) (tracks : List (ℕ × RadarTrack))
    (aircraftMap : List (String × Aircraft)) : List Aircraft × List (String × Aircraft) :=
  tracks.foldl
    (fun acc p =>
      let ageSeconds := (now - p.2.lastUpdate) / 1000
      if ageSeconds > 30 then acc
      else
        let obj := trackToAircraft p.2
        (acc.1 ++ [obj], assocSet acc.2 obj.callsign obj))
    ([], aircraftMap)

/-- The mutable state of the radar processor that the modelled operations
touch: the `radarTracks` and `aircraftMap` tables. -/
structure RadarState where
  radarTracks : List (ℕ × RadarTrack)
  aircraftMap : List (String × Aircraft)

/-- Applying one extracted track update at wall-clock time `now`:
`updateRadarTrack` followed by `convertTracksToAircraft`, as performed by
`processRadarData` for a one-message burst.  Returns the new state and the
aircraft list the call returns. -/
noncomputable def applyTrackUpdate (st : RadarState) (td : RadarTrackUpdate) (now : ℚ) :
    RadarState × List Aircraft :=
  let tracks2 := updateRadarTrack st.radarTracks td now
  let conv := convertTracksToAircraft now tracks2 st.aircraftMap
  ({ radarTracks := tracks2, aircraftMap := conv.2 }, conv.1)

/-- One run of the `startTrackMaintenance` sweep at wall-clock time `now`:
every track strictly older than 60 s is deleted from `radarTracks`, and its
aircraft-map entry is deleted by key. -/
def sweepStale (now : ℚ) (st : RadarState) : RadarState :=
  let isStale := fun (p : ℕ × RadarTrack) => decide (now - p.2.lastUpdate > 60000)
  let removed := st.radarTracks.filter isStale
  { radarTracks := st.radarTracks.filter (fun p => !isStale p)
    aircraftMap := removed.foldl (fun m p => assocDelete m (trackAircraftKey p.2)) st.aircraftMap }

/-- `getAircraftPositions()`: the values of `aircraftMap`, with no staleness
check of its own. -/
def snapshotAircraft (st : RadarState) : List Aircraft :=
  st.aircraftMap.map (·.2)

/-! ## Conflict detection service (the `ConflictDetectionService` unit) -/

/-- `alertThresholds` of `ConflictParameters`. -/
structure AlertThresholds where
  caution : ℚ
  warning : ℚ
  critical : ℚ

/-- `ConflictParameters`: separation standards and horizon. -/
structure ConflictParameters where
  horizontalSeparation : ℝ
  verticalSeparation : ℝ
  timeHorizon : ℚ
  alertThresholds : AlertThresholds

/-- The built-in default separation standards of the service. -/
def stdDefault : ConflictParameters :=
  { horizontalSeparation := 3
    verticalSeparation := 1000
    timeHorizon := 300
    alertThresholds := { caution := 180, warning := 120, critical := 60 } }

/-- `interface TrajectoryPrediction`. -/
structure TrajectoryPrediction where
  aircraft : Aircraft
  predictedPositions : List Position3D
  timeStamps : List ℚ
  confidence : ℚ
  uncertaintyRadius : ℚ

/-- `calculateHorizontalDistance(pos1, pos2)`: haversine great-circle
distance in nautical miles. -/
noncomputable def calculateHorizontalDistance (pos1 pos2 : Position3D) : ℝ :=
  let R : ℝ := 3440.065
  let dLat := (pos2.latitude - pos1.latitude) * Real.pi / 180
  let dLon := (pos2.longitude - pos1.longitude) * Real.pi / 180
  let a := Real.sin (dLat / 2) * Real.sin (dLat / 2) +
    Real.cos (pos1.latitude * Real.pi / 180) * Real.cos (pos2.latitude * Real.pi / 180) *
    Real.sin (dLon / 2) * Real.sin (dLon / 2)
  let c := 2 * atan2 (Real.sqrt a) (Real.sqrt (1 - a))
  R * c

/-- The combined separation metric of `detectPairwiseConflict`:
`sqrt(horizontal² + (vertical/6076.12)²)` with vertical feet converted to
nautical miles. -/
noncomputable def combinedSeparation (pos1 pos2 : Position3D) : ℝ :=
  Real.sqrt (calculateHorizontalDistance pos1 pos2 ^ 2 +
    (|pos1.altitude - pos2.altitude| / 6076.12) ^ 2)

/-- `calculateTrajectoryConfidence(aircraft)`. -/
def calculateTrajectoryConfidence (now : ℚ) (aircraft : Aircraft) : ℚ :=
  let dataAge := (now - aircraft.lastUpdate) / 1000
  let ageConfidence := max 0.1 (1 - dataAge / 30)
  let statusConfidence : ℚ := if aircraft.status = .UNKNOWN then 0.5 else 0.9
  ageConfidence * statusConfidence

/-- `calculateUncertaintyRadius(aircraft)`. -/
def calculateUncertaintyRadius (now : ℚ) (aircraft : Aircraft) : ℚ :=
  let dataAge := (now - aircraft.lastUpdate) / 1000
  0.5 + dataAge / 60 * 0.1

/-- `predictTrajectory(aircraft)`: straight-line extrapolation sampled at
`t = 0, 10, ..., ≤ timeHorizon` seconds (`for (t = 0; t <= maxTime; t += 10)`
visits `floor (maxTime / 10) + 1` values of `t` when `maxTime ≥ 0`, none
otherwise). -/
noncomputable def predictTrajectory (std : ConflictParameters) (now : ℚ)
    (aircraft : Aircraft) : TrajectoryPrediction :=
  let numSamples := (⌊std.timeHorizon / 10⌋ + 1).toNat
  { aircraft := aircraft
    predictedPositions := (List.range numSamples).map (fun (k : ℕ) =>
      let t : ℚ := 10 * (k : ℚ)
      { latitude := aircraft.currentPosition.latitude +
          aircraft.velocity.y * (t : ℝ) / 111320
        longitude := aircraft.currentPosition.longitude +
          aircraft.velocity.x * (t : ℝ) /
            (111320 * Real.cos (aircraft.currentPosition.latitude * Real.pi / 180))
        altitude := aircraft.currentPosition.altitude +
          aircraft.velocity.z * (t : ℝ) * 3.28084
        timestamp := aircraft.lastUpdate + t * 1000 })
    timeStamps := (List.range numSamples).map (fun (k : ℕ) => aircraft.lastUpdate + 10 * (k : ℚ) * 1000)
    confidence := calculateTrajectoryConfidence now aircraft
    uncertaintyRadius := calculateUncertaintyRadius now aircraft }

/-- `isTrajectoryValid(trajectory, aircraft)`: the age of the trajectory's
first timestamp against the clock, under 30 s.  (The aircraft argument is
not read: a newer position on the track is not consulted.) -/
def isTrajectoryValid (now : ℚ) (trajectory : TrajectoryPrediction)
    (_aircraft : Aircraft) : Bool :=
  decide (now - trajectory.timeStamps.getD 0 0 < 30000)

/-- The loop body of `generateTrajectoryPredictions` for one aircraft:
the prediction served (cached when present and valid, else fresh) and the
resulting trajectory cache. -/
noncomputable def trajectoryStep (std : ConflictParameters) (now : ℚ)
    (cache : List (String × TrajectoryPrediction)) (ac : Aircraft) :
    TrajectoryPrediction × List (String × TrajectoryPrediction) :=
  match assocLookup cache ac.callsign with
  | some cached =>
    if isTrajectoryValid now cached ac then (cached, cache)
    else
      let p := predictTrajectory std now ac
      (p, assocSet cache ac.callsign p)
  | none =>
    let p := predictTrajectory std now ac
    (p, assocSet cache ac.callsign p)

/-- The accumulator transition of the `generateTrajectoryPredictions` loop:
the accumulator is the `(predictions, trajectoryCache)` pair. -/
noncomputable def genStep (std : ConflictParameters) (now : ℚ)
    (acc : List (String × TrajectoryPrediction) × List (String × TrajectoryPrediction))
    (ac : Aircraft) :
    List (String × TrajectoryPrediction) × List (String × TrajectoryPrediction) :=
  (assocSet acc.1 ac.callsign (trajectoryStep std now acc.2 ac).1,
    (trajectoryStep std now acc.2 ac).2)

/-- `generateTrajectoryPredictions(aircraft)`: the predictions map for the
cycle and the updated cache. -/
noncomputable def generateTrajectoryPredictions (std : ConflictParameters) (now : ℚ)
    (cache : List (String × TrajectoryPrediction)) (aircraft : List Aircraft) :
    List (String × TrajectoryPrediction) × List (String × TrajectoryPrediction) :=
  aircraft.foldl (genStep std now) ([], cache)

/-- `filterActiveAircraft(aircraft)`: age under 30 s and altitude above 0. -/
noncomputable def filterActiveAircraft (now : ℚ) (aircraft : List Aircraft) : List Aircraft :=
  aircraft.filter (fun ac => decide (now - ac.lastUpdate < 30000 ∧ ac.altitude > 0))

/-- `determineConflictType(aircraft1, aircraft2, pos1, pos2)`. -/
noncomputable def determineConflictType (_aircraft1 _aircraft2 : Aircraft)
    (pos1 pos2 : Position3D) : ConflictType :=
  let altitudeDiff := |pos1.altitude - pos2.altitude|
  if altitudeDiff < 500 then .SEPARATION_VIOLATION
  else if pos1.altitude < 1000 ∨ pos2.altitude < 1000 then .GROUND_CONFLICT
  else .ALTITUDE_CONFLICT

/-- `calculateSeverity(separation, timeToConflict)`. -/
noncomputable def calculateSeverity (separation : ℝ) (timeToConflict : ℚ) : SeverityLevel :=
  if separation < 1 ∧ timeToConflict < 60 then .CRITICAL
  else if separation < 2 ∧ timeToConflict < 120 then .HIGH
  else if separation < 3 ∧ timeToConflict < 180 then .MEDIUM
  else .LOW

/-- The conflict id minted for every detected conflict:
``conflict_${Date.now()}_${Math.random().toString(36).substr(2, 9)}``,
with the random suffix supplied as `nonce`. -/
def mkConflictId (now : ℚ) (nonce : String) : String :=
  "conflict_" ++ toString now ++ "_" ++ nonce

/-- Sample position `i` of a trajectory, `trajectory.predictedPositions[i]`. -/
def pairPos (tr : TrajectoryPrediction) (i : ℕ) : Position3D :=
  tr.predictedPositions.getD i default

/-- The combined separation of two trajectories at sample index `i`. -/
noncomputable def pairSep (tr1 tr2 : TrajectoryPrediction) (i : ℕ) : ℝ :=
  combinedSeparation (pairPos tr1 i) (pairPos tr2 i)

/-- `trajectory1.timeStamps[i]`, the timestamp attributed to sample `i`. -/
def pairTime (tr1 : TrajectoryPrediction) (i : ℕ) : ℚ :=
  tr1.timeStamps.getD i 0

/-- One iteration of the closest-point-of-approach loop: the running state
is `none` for the initial `minSeparation = Infinity` / `conflictTime = null`,
and otherwise carries `(minSeparation, conflictTime, conflictPosition1,
conflictPosition2)`; the update fires on a strictly smaller separation. -/
noncomputable def cpaStep (sep : ℕ → ℝ) (ts : ℕ → ℚ) (p1 p2 : ℕ → Position3D)
    (acc : Option (ℝ × ℚ × Position3D × Position3D)) (i : ℕ) :
    Option (ℝ × ℚ × Position3D × Position3D) :=
  match acc with
  | none => some (sep i, ts i, p1 i, p2 i)
  | some (minSep, ct, a, b) =>
    if sep i < minSep then some (sep i, ts i, p1 i, p2 i) else some (minSep, ct, a, b)

/-- The closest-point-of-approach loop over sample indices `0, ..., n-1`. -/
noncomputable def cpaScan (sep : ℕ → ℝ) (ts : ℕ → ℚ) (p1 p2 : ℕ → Position3D) (n : ℕ) :
    Option (ℝ × ℚ × Position3D × Position3D) :=
  (List.range n).foldl (cpaStep sep ts p1 p2) none

/-- `detectPairwiseConflict(aircraft1, aircraft2, trajectory1, trajectory2)`.
The clock (`Date.now()` for the id, the time-to-conflict, and `detectedAt`)
is the parameter `now`; the per-conflict random suffix is `nonce`. -/
noncomputable def detectPairwiseConflict (std : ConflictParameters) (now : ℚ)
    (nonce : String) (aircraft1 aircraft2 : Aircraft)
    (trajectory1 trajectory2 : Option TrajectoryPrediction) : Option Conflict :=
  match trajectory1, trajectory2 with
  | some tr1, some tr2 =>
    let n := min tr1.predictedPositions.length tr2.predictedPositions.length
    match cpaScan (pairSep tr1 tr2) (pairTime tr1) (pairPos tr1) (pairPos tr2) n with
    | none => none
    | some (minSeparation, conflictTime, cp1, cp2) =>
      if minSeparation < std.horizontalSeparation then
        if 0 < (conflictTime - now) / 1000 ∧ (conflictTime - now) / 1000 ≤ std.timeHorizon then
          some
            { id := mkConflictId now nonce
              aircraftInvolved := [aircraft1, aircraft2]
              conflictType := determineConflictType aircraft1 aircraft2 cp1 cp2
              timeToConflict := (conflictTime - now) / 1000
              severity := calculateSeverity minSeparation ((conflictTime - now) / 1000)
              resolutionOptions := []
              status := .DETECTED
              detectedAt := now }
        else none
      else none
  | _, _ => none

/-- `updateActiveConflicts(newConflicts)` together with the
`moveConflictToHistory` trimming: active conflicts whose id is absent from
the new list are marked `RESOLVED` and moved to the 24-hour history; then
every new conflict is upserted by id. -/
def updateActiveConflicts (now : ℚ) (active : List (String × Conflict))
    (history : List Conflict) (newConflicts : List Conflict) :
    List (String × Conflict) × List Conflict :=
  let currentIds := newConflicts.map (·.id)
  let (active1, history1) :=
    active.foldl
      (fun acc p =>
        if currentIds.contains p.1 then (acc.1 ++ [p], acc.2)
        else
          (acc.1,
            (acc.2 ++ [{ p.2 with status := .RESOLVED }]).filter
              (fun c => decide (now - 86400000 ≤ c.detectedAt))))
      ([], history)
  (newConflicts.foldl (fun m c => assocSet m c.id c) active1, history1)

/-- The unordered index pairs `i < j` of the double loop of
`detectConflicts`, in loop order. -/
def allPairs {α : Type _} : List α → List (α × α)
  | [] => []
  | x :: xs => xs.map (fun y => (x, y)) ++ allPairs xs

/-- Pairs each list element with its running index (used to supply each
detected conflict its own fresh random suffix). -/
def enumList {α : Type _} (k : ℕ) : List α → List (ℕ × α)
  | [] => []
  | x :: xs => (k, x) :: enumList (k + 1) xs

/-- The observable outcome of one `detectConflicts(aircraft)` cycle. -/
structure DetectionOutcome where
  newConflicts : List Conflict
  activeConflicts : List (String × Conflict)
  history : List Conflict
  trajectoryCache : List (String × TrajectoryPrediction)

/-- `detectConflicts(aircraft)`: filter to active aircraft, early-return on
fewer than two, predict trajectories with the cache, detect pairwise
conflicts in `i < j` loop order (`nonces k` is the random id suffix of the
`k`-th pair), then reconcile the active-conflict table. -/
noncomputable def detectConflicts (std : ConflictParameters) (now : ℚ)
    (nonces : ℕ → String) (cache : List (String × TrajectoryPrediction))
    (active : List (String × Conflict)) (history : List Conflict)
    (aircraft : List Aircraft) : DetectionOutcome :=
  let activeAircraft := filterActiveAircraft now aircraft
  if activeAircraft.length < 2 then
    { newConflicts := [], activeConflicts := active, history := history,
      trajectoryCache := cache }
  else
    let gp := generateTrajectoryPredictions std now cache activeAircraft
    let newConflicts :=
      (enumList 0 (allPairs activeAircraft)).filterMap (fun kp =>
        detectPairwiseConflict std now (nonces kp.1) kp.2.1 kp.2.2
          (assocLookup gp.1 kp.2.1.callsign)
          (assocLookup gp.1 kp.2.2.callsign))
    let ah := updateActiveConflicts now active history newConflicts
    { newConflicts := newConflicts, activeConflicts := ah.1, history := ah.2,
      trajectoryCache := gp.2 }

/-! ## Resolution-suggestion collaborator (the `OpenAIService` unit) -/

/-- The observable outcome of the external call inside
`generateConflictResolutions`: the awaited API call may throw or time out
(`failure`), may answer without the expected function call
(`missingFunctionCall`, which the source turns into a thrown error caught by
the same handler), or may deliver parsed resolutions. -/
inductive CollaboratorOutcome where
  | failure
  | missingFunctionCall
  | parsed (resolutions : List ResolutionOption)

/-- The fallback resolution substituted by the `catch` of
`generateConflictResolutions`. -/
def fallbackResolution : ResolutionOption :=
  { id := "fallback-001"
    description := "Manual resolution required"
    instructions := ["Contact supervisor for manual conflict resolution"]
    estimatedResolutionTime := 300
    confidence := 0.1 }

/-- `generateConflictResolutions(conflictDescription, aircraftData)`: a total
function of the collaborator outcome — failures never escape, they produce
the single fallback option. -/
def generateConflictResolutions (outcome : CollaboratorOutcome) : List ResolutionOption :=
  match outcome with
  | .failure => [fallbackResolution]
  | .missingFunctionCall => [fallbackResolution]
  | .parsed resolutions => resolutions

/-! ## Concrete scenario data used by counterexamples and witnesses -/

/-- A shared position for the converging-pair scenario: the origin at
5000 ft, timestamped 120 s. -/
def demoPos : Position3D := ⟨0, 0, 5000, 120000⟩

/-- First aircraft of the scenario pair. -/
def demoAC1 : Aircraft :=
  { callsign := "AAL1"
    currentPosition := demoPos
    velocity := ⟨0, 0, 0⟩
    altitude := 5000
    heading := 0
    squawkCode := "1200"
    status := .ARRIVING
    lastUpdate := 120000 }

/-- Second aircraft of the scenario pair: same kinematic state, different
identity. -/
def demoAC2 : Aircraft :=
  { demoAC1 with callsign := "AAL2", squawkCode := "1201" }

/-- A fixed supply of per-conflict random suffixes. -/
def demoNonces : ℕ → String := fun _ => "rnd"

/-- The conflict record the scenario pair produces at detection time `now`
(for `60 ≤ (120000 - now)/1000 < 120`). -/
def demoConflict (now : ℚ) (nonce : String) : Conflict :=
  { id := mkConflictId now nonce
    aircraftInvolved := [demoAC1, demoAC2]
    conflictType := .SEPARATION_VIOLATION
    timeToConflict := (120000 - now) / 1000
    severity := .HIGH
    resolutionOptions := []
    status := .DETECTED
    detectedAt := now }

/-- A track as last observed at time 0 (for the trajectory-cache scenario). -/
def demoAC7old : Aircraft :=
  { demoAC1 with callsign := "AAL7", lastUpdate := 0 }

/-- The same track after a new position report at time 10000 ms. -/
def demoAC7new : Aircraft :=
  { demoAC1 with callsign := "AAL7", lastUpdate := 10000 }

/-- The trajectory cached for AAL7 before the new position arrived. -/
noncomputable def demoCachedTrajectory : TrajectoryPrediction :=
  predictTrajectory stdDefault 0 demoAC7old

/-- An existing radar track with a non-zero velocity, last updated at
50000 ms. -/
def demoTrack : RadarTrack :=
  { trackNumber := 7
    callsign := some "AAL9"
    position := demoPos
    velocity := ⟨100, 0, 0⟩
    heading := 90
    squawkCode := some "1200"
    flightLevel := some 5000
    groundSpeed := some 100
    lastUpdate := 50000
    trackQuality := { confidence := 0.8, positionAccuracy := 100, velocityAccuracy := 5,
                      ageSeconds := 0, sourceReliability := 0.9 } }

/-- An update carrying a new (different) position. -/
def demoUpdatePos : RadarTrackUpdate :=
  { trackNumber := some 7
    callsign := none
    position := some ⟨1, 1, 6000, 50000⟩
    squawkCode := none
    flightLevel := none }

/-- An update that creates track 7 / AAL9 (for the staleness scenario). -/
def demoCreate : RadarTrackUpdate :=
  { trackNumber := some 7
    callsign := some "AAL9"
    position := some demoPos
    squawkCode := some "1200"
    flightLevel := some 5000 }

/-- A fresh radar track (last updated at 100000 ms). -/
def demoTrackFresh : RadarTrack := { demoTrack with trackNumber := 1, lastUpdate := 100000 }

/-- A stale radar track (last updated at 0 ms). -/
def demoTrackStale : RadarTrack :=
  { demoTrack with trackNumber := 2, callsign := some "AAL8", lastUpdate := 0 }

/-- A radar state holding the fresh and the stale track with their aircraft
entries. -/
noncomputable def demoRadarState : RadarState :=
  { radarTracks := [(1, demoTrackFresh), (2, demoTrackStale)]
    aircraftMap := [("AAL9", trackToAircraft demoTrackFresh),
                    ("AAL8", trackToAircraft demoTrackStale)] }

/-! ## Helper lemmas -/

theorem complex_mk_eq_mul_I (x : ℝ) : (⟨0, x⟩ : ℂ) = (x : ℂ) * Complex.I := by
  apply Complex.ext <;> simp

theorem atan2_pos_zero {x : ℝ} (hx : 0 < x) : atan2 x 0 = Real.pi / 2 := by
  unfold atan2
  rw [complex_mk_eq_mul_I, Complex.arg_real_mul _ hx, Complex.arg_I]

theorem atan2_zero_one : atan2 0 1 = 0 := by
  unfold atan2
  have h1 : (⟨1, 0⟩ : ℂ) = 1 := by apply Complex.ext <;> simp
  rw [h1, Complex.arg_one]

theorem calculateHeading_mem_Ico (v : Vector3D) :
    calculateHeading v ∈ Set.Ico (0 : ℝ) 360 := by
  unfold calculateHeading atan2
  have hpi := Real.pi_pos
  obtain ⟨h1, h2⟩ := Complex.arg_mem_Ioc (⟨v.y, v.x⟩ : ℂ)
  set θ := Complex.arg (⟨v.y, v.x⟩ : ℂ)
  have hb1 : -180 < θ * 180 / Real.pi := by
    rw [lt_div_iff₀ hpi]
    nlinarith
  have hb2 : θ * 180 / Real.pi ≤ 180 := by
    rw [div_le_iff₀ hpi]
    nlinarith
  by_cases hneg : θ * 180 / Real.pi < 0
  · rw [if_pos hneg]
    constructor <;> linarith
  · rw [if_neg hneg]
    constructor <;> linarith

theorem calculateHorizontalDistance_self (p : Position3D) :
    calculateHorizontalDistance p p = 0 := by
  unfold calculateHorizontalDistance
  simp [sub_self, Real.sin_zero, atan2_zero_one]

theorem combinedSeparation_self (p : Position3D) : combinedSeparation p p = 0 := by
  unfold combinedSeparation
  rw [calculateHorizontalDistance_self, sub_self, abs_zero]
  norm_num

theorem cpaScan_succ (sep : ℕ → ℝ) (ts : ℕ → ℚ) (p1 p2 : ℕ → Position3D) (n : ℕ) :
    cpaScan sep ts p1 p2 (n + 1) = cpaStep sep ts p1 p2 (cpaScan sep ts p1 p2 n) n := by
  simp [cpaScan, List.range_succ]

/-- The CPA loop returns the minimum separation over all sample indices
below `n`, together with the data of the first index attaining it. -/
theorem cpaScan_spec (sep : ℕ → ℝ) (ts : ℕ → ℚ) (p1 p2 : ℕ → Position3D) :
    ∀ n, 0 < n → ∃ j, j < n ∧ (∀ i, i < n → sep j ≤ sep i) ∧
      (∀ i, i < j → sep j < sep i) ∧
      cpaScan sep ts p1 p2 n = some (sep j, ts j, p1 j, p2 j) := by
  intro n
  induction n with
  | zero => intro h; exact absurd h (lt_irrefl 0)
  | succ n ih =>
    intro _
    rcases Nat.eq_zero_or_pos n with hn | hn
    · subst hn
      refine ⟨0, Nat.zero_lt_one, ?_, ?_, ?_⟩
      · intro i hi
        interval_cases i
        exact le_refl _
      · intro i hi
        exact absurd hi (Nat.not_lt_zero i)
      · rfl
    · obtain ⟨j, hj, hmin, hfirst, hscan⟩ := ih hn
      rw [cpaScan_succ, hscan]
      by_cases hlt : sep n < sep j
      · refine ⟨n, Nat.lt_succ_self n, ?_, ?_, ?_⟩
        · intro i hi
          rcases Nat.lt_succ_iff_lt_or_eq.mp hi with h | h
          · exact le_of_lt (lt_of_lt_of_le hlt (hmin i h))
          · subst h; exact le_refl _
        · intro i hi
          exact lt_of_lt_of_le hlt (hmin i hi)
        · simp [cpaStep, hlt]
      · refine ⟨j, Nat.lt_succ_of_lt hj, ?_, hfirst, ?_⟩
        · intro i hi
          rcases Nat.lt_succ_iff_lt_or_eq.mp hi with h | h
          · exact hmin i h
          · subst h; exact not_lt.mp hlt
        · simp [cpaStep, hlt]

/-! ## Claim theorems -/

/-- Claim C8: the derived heading is the compass bearing of the velocity
vector normalised into `[0, 360)`; in particular two positions at equal
latitude with the second due east of the first and a later timestamp give
heading 90°. -/
theorem calculateHeading_bearing :
    (∀ v : Vector3D, (v.x ≠ 0 ∨ v.y ≠ 0) → calculateHeading v ∈ Set.Ico (0 : ℝ) 360) ∧
    (∀ p1 p2 : Position3D, ∀ t1 t2 : ℚ, t1 < t2 → p1.latitude = p2.latitude →
      |p1.latitude| < 90 → p1.longitude < p2.longitude →
      calculateHeading (calculateVelocity p1 p2 t1 t2) = 90) := by
  constructor
  · intro v _
    exact calculateHeading_mem_Ico v
  · intro p1 p2 t1 t2 ht hlat hlat90 hlon
    have hdtq : (0 : ℚ) < (t2 - t1) / 1000 := by
      apply div_pos _ (by norm_num)
      exact sub_pos.mpr ht
    have hdt : ¬ ((t2 - t1) / 1000 ≤ (0 : ℚ)) := not_le.mpr hdtq
    unfold calculateVelocity
    rw [if_neg hdt]
    have hcos : 0 < Real.cos (p1.latitude * Real.pi / 180) := by
      have hpi := Real.pi_pos
      obtain ⟨ha, hb⟩ := abs_lt.mp hlat90
      apply Real.cos_pos_of_mem_Ioo
      constructor
      · have h90 : (0 : ℝ) < p1.latitude + 90 := by linarith
        nlinarith [mul_pos h90 hpi]
      · have h90 : (0 : ℝ) < 90 - p1.latitude := by linarith
        nlinarith [mul_pos h90 hpi]
    have hdtr : (0 : ℝ) < (((t2 - t1) / 1000 : ℚ) : ℝ) := by exact_mod_cast hdtq
    have hX : 0 < (p2.longitude - p1.longitude) * 111320 *
        Real.cos (p1.latitude * Real.pi / 180) / (((t2 - t1) / 1000 : ℚ) : ℝ) := by
      apply div_pos _ hdtr
      exact mul_pos (mul_pos (sub_pos.mpr hlon) (by norm_num)) hcos
    have hy0 : (p2.latitude - p1.latitude) * 111320 / (((t2 - t1) / 1000 : ℚ) : ℝ) = 0 := by
      rw [hlat, sub_self, zero_mul, zero_div]
    unfold calculateHeading
    simp only [hy0]
    rw [atan2_pos_zero hX]
    have h90 : Real.pi / 2 * 180 / Real.pi = 90 := by
      field_simp
      ring
    rw [h90, if_neg (by norm_num)]

/-- A single-sample trajectory at the shared scenario position, timestamped
120 s (used to instantiate the C3 theorem). -/
def demoSingleTrajectory : TrajectoryPrediction :=
  { aircraft := demoAC1
    predictedPositions := [demoPos]
    timeStamps := [120000]
    confidence := 1
    uncertaintyRadius := 1 }

/-- Claim C3: for a pair with non-empty aligned trajectories, a conflict is
emitted iff the minimum combined separation `sqrt(h² + (v/6076.12)²)` over
the aligned samples is below the configured horizontal standard (3.0 NM by
default) and the CPA time is strictly in the future and at most the
configured horizon (300 s by default); the emitted record's `timeToConflict`
equals the CPA time minus the current time, in seconds.  The index `j` is
the CPA sample: the first index attaining the minimum combined separation. -/
theorem detectPairwiseConflict_cpa_iff (std : ConflictParameters) (now : ℚ)
    (nonce : String) (a1 a2 : Aircraft) (tr1 tr2 : TrajectoryPrediction)
    (hn : 0 < min tr1.predictedPositions.length tr2.predictedPositions.length) :
    (stdDefault.horizontalSeparation = 3 ∧ stdDefault.timeHorizon = 300) ∧
    ∃ j, j < min tr1.predictedPositions.length tr2.predictedPositions.length ∧
      (∀ i, i < min tr1.predictedPositions.length tr2.predictedPositions.length →
        pairSep tr1 tr2 j ≤ pairSep tr1 tr2 i) ∧
      (∀ i, i < j → pairSep tr1 tr2 j < pairSep tr1 tr2 i) ∧
      ((detectPairwiseConflict std now nonce a1 a2 (some tr1) (some tr2)).isSome ↔
        (pairSep tr1 tr2 j < std.horizontalSeparation ∧
          0 < (pairTime tr1 j - now) / 1000 ∧
          (pairTime tr1 j - now) / 1000 ≤ std.timeHorizon)) ∧
      (∀ c, detectPairwiseConflict std now nonce a1 a2 (some tr1) (some tr2) = some c →
        c.timeToConflict = (pairTime tr1 j - now) / 1000) := by
  refine ⟨⟨rfl, rfl⟩, ?_⟩
  obtain ⟨j, hj, hmin, hfirst, hscan⟩ :=
    cpaScan_spec (pairSep tr1 tr2) (pairTime tr1) (pairPos tr1) (pairPos tr2) _ hn
  refine ⟨j, hj, hmin, hfirst, ?_, ?_⟩
  · unfold detectPairwiseConflict
    dsimp only
    rw [hscan]
    dsimp only
    by_cases h1 : pairSep tr1 tr2 j < std.horizontalSeparation
    · rw [if_pos h1]
      by_cases h2 : 0 < (pairTime tr1 j - now) / 1000 ∧
          (pairTime tr1 j - now) / 1000 ≤ std.timeHorizon
      · rw [if_pos h2]
        simp only [Option.isSome_some]
        exact iff_of_true trivial ⟨h1, h2⟩
      · rw [if_neg h2]
        simp only [Option.isSome_none, Bool.false_eq_true, false_iff]
        rintro ⟨-, hA, hB⟩
        exact h2 ⟨hA, hB⟩
    · rw [if_neg h1]
      simp only [Option.isSome_none, Bool.false_eq_true, false_iff]
      rintro ⟨hA, -⟩
      exact h1 hA
  · intro c hc
    unfold detectPairwiseConflict at hc
    dsimp only at hc
    rw [hscan] at hc
    dsimp only at hc
    split_ifs at hc with h1 h2
    · simp only [Option.some.injEq] at hc
      rw [← hc]

/-- Witness for C3 at a concrete single-sample trajectory pair. -/
theorem detectPairwiseConflict_cpa_iff_witness :
    (0 < min demoSingleTrajectory.predictedPositions.length
        demoSingleTrajectory.predictedPositions.length) ∧
    ((stdDefault.horizontalSeparation = 3 ∧ stdDefault.timeHorizon = 300) ∧
    ∃ j, j < min demoSingleTrajectory.predictedPositions.length
        demoSingleTrajectory.predictedPositions.length ∧
      (∀ i, i < min demoSingleTrajectory.predictedPositions.length
          demoSingleTrajectory.predictedPositions.length →
        pairSep demoSingleTrajectory demoSingleTrajectory j ≤
          pairSep demoSingleTrajectory demoSingleTrajectory i) ∧
      (∀ i, i < j → pairSep demoSingleTrajectory demoSingleTrajectory j <
        pairSep demoSingleTrajectory demoSingleTrajectory i) ∧
      ((detectPairwiseConflict stdDefault 1000 "rnd" demoAC1 demoAC2
          (some demoSingleTrajectory) (some demoSingleTrajectory)).isSome ↔
        (pairSep demoSingleTrajectory demoSingleTrajectory j <
            stdDefault.horizontalSeparation ∧
          0 < (pairTime demoSingleTrajectory j - 1000) / 1000 ∧
          (pairTime demoSingleTrajectory j - 1000) / 1000 ≤ stdDefault.timeHorizon)) ∧
      (∀ c, detectPairwiseConflict stdDefault 1000 "rnd" demoAC1 demoAC2
          (some demoSingleTrajectory) (some demoSingleTrajectory) = some c →
        c.timeToConflict = (pairTime demoSingleTrajectory j - 1000) / 1000)) :=
  ⟨by decide, detectPairwiseConflict_cpa_iff stdDefault 1000 "rnd" demoAC1 demoAC2
    demoSingleTrajectory demoSingleTrajectory (by decide)⟩

/-- Witness for C8 at a concrete eastbound velocity and a concrete due-east
position pair. -/
theorem calculateHeading_bearing_witness :
    (((⟨1, 0, 0⟩ : Vector3D).x ≠ 0 ∨ (⟨1, 0, 0⟩ : Vector3D).y ≠ 0) ∧
      calculateHeading ⟨1, 0, 0⟩ ∈ Set.Ico (0 : ℝ) 360) ∧
    (((0 : ℚ) < 1000 ∧ (⟨0, 0, 0, 0⟩ : Position3D).latitude = (⟨0, 1, 0, 0⟩ : Position3D).latitude ∧
      |(⟨0, 0, 0, 0⟩ : Position3D).latitude| < 90 ∧
      (⟨0, 0, 0, 0⟩ : Position3D).longitude < (⟨0, 1, 0, 0⟩ : Position3D).longitude) ∧
      calculateHeading (calculateVelocity ⟨0, 0, 0, 0⟩ ⟨0, 1, 0, 0⟩ 0 1000) = 90) :=
  ⟨⟨Or.inl one_ne_zero, calculateHeading_bearing.1 ⟨1, 0, 0⟩ (Or.inl one_ne_zero)⟩,
    ⟨⟨by norm_num, rfl, by norm_num, by norm_num⟩,
      calculateHeading_bearing.2 ⟨0, 0, 0, 0⟩ ⟨0, 1, 0, 0⟩ 0 1000 (by norm_num) rfl
        (by norm_num) (by norm_num)⟩⟩

/-- Claim C9: a failing or timed-out resolution-suggestion call degrades to
exactly one safe fallback option carrying the manual-intervention
instruction, and the failure does not propagate — the function returns the
fallback list normally. -/
theorem resolution_fallback_on_failure :
    generateConflictResolutions .failure = [fallbackResolution] ∧
    generateConflictResolutions .missingFunctionCall = [fallbackResolution] ∧
    (generateConflictResolutions .failure).length = 1 ∧
    "Contact supervisor for manual conflict resolution" ∈ fallbackResolution.instructions := by
  refine ⟨rfl, rfl, rfl, ?_⟩
  simp [fallbackResolution]

/-- The trajectory the first detection cycle (clock 1000 ms) computes for
AAL1. -/
noncomputable def demoTraj1 : TrajectoryPrediction := predictTrajectory stdDefault 1000 demoAC1

/-- The trajectory the first detection cycle computes for AAL2. -/
noncomputable def demoTraj2 : TrajectoryPrediction := predictTrajectory stdDefault 1000 demoAC2

theorem demo_pairSep_eq_zero (i : ℕ) : pairSep demoTraj1 demoTraj2 i = 0 := by
  unfold pairSep
  rw [show pairPos demoTraj2 i = pairPos demoTraj1 i from rfl]
  exact combinedSeparation_self _

theorem stdDefault_numSamples : (⌊stdDefault.timeHorizon / 10⌋ + 1).toNat = 31 := by
  have h : (stdDefault.timeHorizon / 10 : ℚ) = ((30 : ℤ) : ℚ) := by norm_num [stdDefault]
  rw [h, Int.floor_intCast]
  rfl

theorem getD_map_range {α : Type _} (f : ℕ → α) (n : ℕ) (hn : 0 < n) (d : α) :
    ((List.range n).map f).getD 0 d = f 0 := by
  cases n with
  | zero => exact absurd hn (lt_irrefl 0)
  | succ n => rw [List.range_succ_eq_map]; rfl

theorem demoTraj1_positions_length : demoTraj1.predictedPositions.length = 31 := by
  unfold demoTraj1 predictTrajectory
  dsimp only
  rw [List.length_map, List.length_range, stdDefault_numSamples]

theorem demo_pairTime_zero : pairTime demoTraj1 0 = 120000 := by
  unfold pairTime demoTraj1 predictTrajectory
  dsimp only
  rw [stdDefault_numSamples, getD_map_range _ _ (by norm_num)]
  norm_num [demoAC1]

theorem demo_conflictType :
    determineConflictType demoAC1 demoAC2 (pairPos demoTraj1 0) (pairPos demoTraj2 0) =
      .SEPARATION_VIOLATION := by
  unfold determineConflictType
  rw [show pairPos demoTraj2 0 = pairPos demoTraj1 0 from rfl, sub_self, abs_zero]
  rw [if_pos (by norm_num)]

theorem demo_severity (now : ℚ) (h3 : ¬ (120000 - now) / 1000 < 60)
    (h4 : (120000 - now) / 1000 < 120) :
    calculateSeverity 0 ((120000 - now) / 1000) = .HIGH := by
  unfold calculateSeverity
  rw [if_neg (fun h => h3 h.2), if_pos ⟨by norm_num, h4⟩]

/-- The demo pair at detection clock `now` (with the trajectories computed
by the cycle at clock 1000 ms) yields exactly the demo conflict record. -/
theorem detectPairwise_demo (now : ℚ) (nonce : String)
    (h1 : 0 < (120000 - now) / 1000) (h2 : (120000 - now) / 1000 ≤ 300)
    (h3 : ¬ (120000 - now) / 1000 < 60) (h4 : (120000 - now) / 1000 < 120) :
    detectPairwiseConflict stdDefault now nonce demoAC1 demoAC2
      (some demoTraj1) (some demoTraj2) = some (demoConflict now nonce) := by
  have hn : 0 < min demoTraj1.predictedPositions.length
      demoTraj2.predictedPositions.length := by
    rw [show demoTraj2.predictedPositions = demoTraj1.predictedPositions from rfl,
      demoTraj1_positions_length]
    norm_num
  obtain ⟨j, hj, hmin, hfirst, hscan⟩ :=
    cpaScan_spec (pairSep demoTraj1 demoTraj2) (pairTime demoTraj1)
      (pairPos demoTraj1) (pairPos demoTraj2) _ hn
  have hj0 : j = 0 := by
    by_contra hne
    have hpos : 0 < j := Nat.pos_of_ne_zero hne
    have hcontra := hfirst 0 hpos
    rw [demo_pairSep_eq_zero, demo_pairSep_eq_zero] at hcontra
    exact lt_irrefl 0 hcontra
  subst hj0
  rw [demo_pairSep_eq_zero, demo_pairTime_zero] at hscan
  unfold detectPairwiseConflict
  dsimp only
  rw [hscan]
  dsimp only
  rw [if_pos (show (0 : ℝ) < stdDefault.horizontalSeparation by norm_num [stdDefault])]
  rw [if_pos (show 0 < (120000 - now) / 1000 ∧
      (120000 - now) / 1000 ≤ stdDefault.timeHorizon from ⟨h1, h2⟩)]
  rw [demo_conflictType, demo_severity now h3 h4]
  rfl

/-- Claim C1 (deviation): the same unchanged converging pair, detected in two
consecutive cycles (clocks 1000 ms and 6000 ms) with the cached trajectories
of the first cycle, yields records with two different identities, and the
lifecycle reconciliation therefore retires the first record as RESOLVED and
installs the second as a distinct record instead of updating it. -/
theorem conflict_identity_churn :
    detectPairwiseConflict stdDefault 1000 "r1" demoAC1 demoAC2 (some demoTraj1)
      (some demoTraj2) = some (demoConflict 1000 "r1") ∧
    detectPairwiseConflict stdDefault 6000 "r2" demoAC1 demoAC2 (some demoTraj1)
      (some demoTraj2) = some (demoConflict 6000 "r2") ∧
    (demoConflict 1000 "r1").id ≠ (demoConflict 6000 "r2").id ∧
    updateActiveConflicts 6000 [((demoConflict 1000 "r1").id, demoConflict 1000 "r1")] []
      [demoConflict 6000 "r2"] =
      ([((demoConflict 6000 "r2").id, demoConflict 6000 "r2")],
        [{ demoConflict 1000 "r1" with status := .RESOLVED }]) := by
  refine ⟨?_, ?_, ?_, ?_⟩
  · exact detectPairwise_demo 1000 "r1" (by norm_num) (by norm_num) (by norm_num) (by norm_num)
  · exact detectPairwise_demo 6000 "r2" (by norm_num) (by norm_num) (by norm_num) (by norm_num)
  · decide
  · have hcontains : ([(demoConflict 6000 "r2").id].contains (demoConflict 1000 "r1").id)
        = false := by decide
    have hkeep : decide ((6000 : ℚ) - 86400000 ≤ (demoConflict 1000 "r1").detectedAt)
        = true := decide_eq_true (by norm_num [demoConflict])
    simp only [updateActiveConflicts, List.map, List.foldl, hcontains, Bool.false_eq_true,
      if_false, List.nil_append, List.filter, hkeep, assocSet, List.any_nil, List.append_nil]

theorem detectPairwise_some_involved (std : ConflictParameters) (now : ℚ) (nonce : String)
    (a1 a2 : Aircraft) (t1 t2 : Option TrajectoryPrediction) (c : Conflict)
    (h : detectPairwiseConflict std now nonce a1 a2 t1 t2 = some c) :
    c.aircraftInvolved = [a1, a2] := by
  unfold detectPairwiseConflict at h
  cases t1 with
  | none => simp at h
  | some tr1 =>
    cases t2 with
    | none => simp at h
    | some tr2 =>
      dsimp only at h
      rcases hscan : cpaScan (pairSep tr1 tr2) (pairTime tr1) (pairPos tr1) (pairPos tr2)
          (min tr1.predictedPositions.length tr2.predictedPositions.length) with
        _ | ⟨m, ct, p, q⟩
      · rw [hscan] at h
        simp at h
      · rw [hscan] at h
        dsimp only at h
        split_ifs at h
        simp only [Option.some.injEq] at h
        rw [← h]

theorem allPairs_mem {α : Type _} (l : List α) (p : α × α) (h : p ∈ allPairs l) :
    p.1 ∈ l ∧ p.2 ∈ l := by
  induction l with
  | nil => simp [allPairs] at h
  | cons a as ih =>
    simp only [allPairs, List.mem_append, List.mem_map] at h
    rcases h with ⟨b, hb, heq⟩ | h
    · rw [← heq]
      exact ⟨List.mem_cons_self a as, List.mem_cons_of_mem a hb⟩
    · obtain ⟨h1, h2⟩ := ih h
      exact ⟨List.mem_cons_of_mem a h1, List.mem_cons_of_mem a h2⟩

theorem enumList_mem {α : Type _} (k : ℕ) (l : List α) (p : ℕ × α)
    (h : p ∈ enumList k l) : p.2 ∈ l := by
  induction l generalizing k with
  | nil => simp [enumList] at h
  | cons a as ih =>
    simp only [enumList, List.mem_cons] at h
    rcases h with h | h
    · rw [h]
      exact List.mem_cons_self a as
    · exact List.mem_cons_of_mem a (ih _ h)

theorem mem_filterActiveAircraft (now : ℚ) (l : List Aircraft) (a : Aircraft)
    (h : a ∈ filterActiveAircraft now l) : now - a.lastUpdate < 30000 ∧ a.altitude > 0 := by
  unfold filterActiveAircraft at h
  rw [List.mem_filter] at h
  exact of_decide_eq_true h.2

/-- Claim C10: every aircraft appearing in a newly emitted conflict record of
a `detectConflicts` cycle passed the active filter: its age is under 30 s and
its altitude is strictly positive — so aircraft at altitude ≤ 0 or 30 s or
more old are excluded from every pairwise check and from every new record. -/
theorem detectConflicts_only_active_aircraft (std : ConflictParameters) (now : ℚ)
    (nonces : ℕ → String) (cache : List (String × TrajectoryPrediction))
    (active : List (String × Conflict)) (history : List Conflict)
    (aircraft : List Aircraft) :
    ∀ c ∈ (detectConflicts std now nonces cache active history aircraft).newConflicts,
      ∀ a ∈ c.aircraftInvolved, now - a.lastUpdate < 30000 ∧ a.altitude > 0 := by
  intro c hc a ha
  unfold detectConflicts at hc
  by_cases hlen : (filterActiveAircraft now aircraft).length < 2
  · rw [if_pos hlen] at hc
    simp at hc
  · rw [if_neg hlen] at hc
    dsimp only at hc
    rw [List.mem_filterMap] at hc
    obtain ⟨kp, hkp, hdet⟩ := hc
    rw [detectPairwise_some_involved _ _ _ _ _ _ _ _ hdet] at ha
    obtain ⟨h1, h2⟩ := allPairs_mem _ _ (enumList_mem _ _ _ hkp)
    rcases List.mem_pair.mp ha with rfl | rfl
    · exact mem_filterActiveAircraft _ _ _ h1
    · exact mem_filterActiveAircraft _ _ _ h2

theorem demo_filter : filterActiveAircraft 1000 [demoAC1, demoAC2] = [demoAC1, demoAC2] := by
  unfold filterActiveAircraft
  have h1 : decide ((1000 : ℚ) - demoAC1.lastUpdate < 30000 ∧ demoAC1.altitude > 0) = true :=
    decide_eq_true ⟨by norm_num [demoAC1], by simp [demoAC1]⟩
  have h2 : decide ((1000 : ℚ) - demoAC2.lastUpdate < 30000 ∧ demoAC2.altitude > 0) = true :=
    decide_eq_true ⟨by norm_num [demoAC2, demoAC1], by simp [demoAC2, demoAC1]⟩
  simp only [List.filter, h1, h2]

theorem demo_gen : generateTrajectoryPredictions stdDefault 1000 [] [demoAC1, demoAC2] =
    ([("AAL1", demoTraj1), ("AAL2", demoTraj2)], [("AAL1", demoTraj1), ("AAL2", demoTraj2)]) :=
  rfl

theorem detectConflicts_demo :
    (detectConflicts stdDefault 1000 demoNonces [] [] [] [demoAC1, demoAC2]).newConflicts =
      [demoConflict 1000 "rnd"] := by
  have hdet := detectPairwise_demo 1000 "rnd" (by norm_num) (by norm_num) (by norm_num)
    (by norm_num)
  unfold detectConflicts
  rw [demo_filter]
  rw [if_neg (show ¬ ([demoAC1, demoAC2].length < 2) by decide)]
  dsimp only
  rw [demo_gen]
  dsimp only
  rw [show enumList 0 (allPairs [demoAC1, demoAC2]) = [(0, (demoAC1, demoAC2))] from rfl]
  simp only [List.filterMap]
  rw [show assocLookup [("AAL1", demoTraj1), ("AAL2", demoTraj2)] demoAC1.callsign =
      some demoTraj1 from rfl]
  rw [show assocLookup [("AAL1", demoTraj1), ("AAL2", demoTraj2)] demoAC2.callsign =
      some demoTraj2 from rfl]
  rw [show demoNonces 0 = "rnd" from rfl]
  rw [hdet]

/-- Witness for C10: in the concrete two-aircraft cycle the emitted record's
first party indeed satisfies the active-aircraft conditions. -/
theorem detectConflicts_only_active_aircraft_witness :
    (1000 : ℚ) - demoAC1.lastUpdate < 30000 ∧ demoAC1.altitude > 0 :=
  detectConflicts_only_active_aircraft stdDefault 1000 demoNonces [] [] []
    [demoAC1, demoAC2] (demoConflict 1000 "rnd")
    (by rw [detectConflicts_demo]; exact List.mem_singleton.mpr rfl)
    demoAC1 (by simp [demoConflict])

theorem decodeFieldsAux_cons_unknown (cat : AsterixCategory) (data : List ℕ) (fid : ℕ)
    (rest : List ℕ) (offset : ℕ) (h : assocLookup cat.fields fid = none) :
    decodeFieldsAux cat data (fid :: rest) offset = decodeFieldsAux cat data rest offset := by
  simp only [decodeFieldsAux]
  rw [h]

/-- Claim C2 (counterexample to the claim as stated): a category-48 buffer in
which the present field I048/010 declares 2 bytes with only 1 byte remaining
after the FSPEC decodes successfully — with the field skipped — rather than
failing with a truncation error. -/
theorem truncated_field_decode_ok :
    decodeMessage 48 [0x40, 0x01] = .ok { category := 48, fields := [] } := by
  decide

/-- Claim C2 (amended): a field whose declared length exceeds the remaining
bytes is caught per-field (offset advanced one byte, remaining fields still
processed), so the only errors `decodeMessage` can return are the
unsupported-category and incomplete-FSPEC errors; and every slice handed to
a field decoder lies within the buffer — no read past the end. -/
theorem decode_error_classification_and_bounds :
    (∀ category data e, decodeMessage category data = .error e →
      e = DecodeErr.unsupportedCategory category ∨ e = DecodeErr.incompleteFSPEC) ∧
    (∀ cat data fields offset s l,
      (s, l) ∈ (decodeFieldsAux cat data fields offset).2.2 → s + l ≤ data.length) := by
  constructor
  · intro category data e h
    unfold decodeMessage at h
    cases hc : categories category with
    | none =>
      rw [hc] at h
      simp only [Except.error.injEq] at h
      exact Or.inl h.symm
    | some cat =>
      rw [hc] at h
      unfold decodeDataRecord at h
      cases hf : readFSPEC data 0 with
      | error u =>
        rw [hf] at h
        simp only [Except.map, Except.error.injEq] at h
        exact Or.inr h.symm
      | ok pr =>
        rw [hf] at h
        simp [Except.map] at h
  · intro cat data fields
    induction fields with
    | nil =>
      intro offset s l h
      simp [decodeFieldsAux] at h
    | cons fid rest ih =>
      intro offset s l h
      unfold decodeFieldsAux at h
      cases hl : assocLookup cat.fields fid with
      | none =>
        rw [hl] at h
        exact ih offset s l h
      | some fd =>
        rw [hl] at h
        dsimp only at h
        by_cases hb : data.length < offset + getFieldLength fd data offset
        · rw [if_pos hb] at h
          exact ih _ s l h
        · rw [if_neg hb] at h
          cases hd : fd.decoder ((data.drop offset).take (getFieldLength fd data offset)) with
          | error u =>
            rw [hd] at h
            exact ih _ s l h
          | ok v =>
            rw [hd] at h
            dsimp only at h
            rcases List.mem_cons.mp h with heq | htail
            · obtain ⟨rfl, rfl⟩ := Prod.mk.injEq .. |>.mp heq
              exact le_of_not_lt hb
            · exact ih _ s l htail

/-- Witness for C2 at a concrete unsupported category and a concrete
in-bounds decode of I048/010. -/
theorem decode_error_classification_and_bounds_witness :
    (DecodeErr.unsupportedCategory 99 = DecodeErr.unsupportedCategory 99 ∨
      DecodeErr.unsupportedCategory 99 = DecodeErr.incompleteFSPEC) ∧
    1 + 2 ≤ ([0x40, 0xAA, 0xBB] : List ℕ).length :=
  ⟨decode_error_classification_and_bounds.1 99 [] _ (by decide),
   decode_error_classification_and_bounds.2 cat048 [0x40, 0xAA, 0xBB] [0x010] 1 1 2
     (by decide)⟩

/-- Claim C6 (counterexample to the claim as stated): with presence bits for
I048/130 (no catalogue entry) and I048/220, the unknown field is skipped
with the offset UNCHANGED: I048/220 is decoded from the unknown field's own
offset 2 — slice `(2, 3)`, address `0xAABBCC` — whereas decoding from
offset 3 (the claimed one-byte advance) would produce no field at all. -/
theorem unknown_field_offset_unchanged :
    decodeFieldsAux cat048 [0x03, 0x00, 0xAA, 0xBB, 0xCC] [0x130, 0x220] 2 =
      ([("Aircraft Address", .address 11189196 "AABBCC")], 5, [(2, 3)]) ∧
    decodeFieldsAux cat048 [0x03, 0x00, 0xAA, 0xBB, 0xCC] [0x220] 3 = ([], 4, []) ∧
    decodeMessage 48 [0x03, 0x00, 0xAA, 0xBB, 0xCC] =
      .ok { category := 48,
            fields := [("Aircraft Address", .address 11189196 "AABBCC")] } ∧
    decodeFieldsAux cat048 [0x03, 0x00, 0xAA, 0xBB, 0xCC] [0x130, 0x220] 2 ≠
      decodeFieldsAux cat048 [0x03, 0x00, 0xAA, 0xBB, 0xCC] [0x220] 3 :=
  ⟨by decide, by decide, by decide, by decide⟩

/-- Claim C6 (amended): an unknown presence bit is logged and skipped with
the read offset unchanged, and the remaining present fields decode exactly
as if the unknown bit were absent — one unknown field never loses the
fields after it. -/
theorem decodeFields_filter_unknown (cat : AsterixCategory) (data : List ℕ)
    (fields : List ℕ) (offset : ℕ) :
    decodeFieldsAux cat data
      (fields.filter (fun fid => (assocLookup cat.fields fid).isSome)) offset =
    decodeFieldsAux cat data fields offset := by
  induction fields generalizing offset with
  | nil => rfl
  | cons fid rest ih =>
    cases hl : assocLookup cat.fields fid with
    | none =>
      rw [List.filter_cons_of_neg (by simp [hl]), decodeFieldsAux_cons_unknown _ _ _ _ _ hl,
        ih]
    | some fd =>
      rw [List.filter_cons_of_pos (by simp [hl])]
      unfold decodeFieldsAux
      rw [hl]
      dsimp only
      by_cases hb : data.length < offset + getFieldLength fd data offset
      · rw [if_pos hb, if_pos hb, ih]
      · rw [if_neg hb, if_neg hb]
        cases hd : fd.decoder ((data.drop offset).take (getFieldLength fd data offset)) with
        | error u => exact ih _
        | ok v =>
          dsimp only
          rw [ih]

theorem merge_velocity_zero :
    (mergeExistingTrack demoTrack demoUpdatePos 50000).velocity = ⟨0, 0, 0⟩ := by
  show calculateVelocity demoTrack.position ⟨1, 1, 6000, 50000⟩ demoTrack.lastUpdate 50000 = _
  unfold calculateVelocity
  rw [if_pos (show ((50000 : ℚ) - demoTrack.lastUpdate) / 1000 ≤ 0 by norm_num [demoTrack])]

/-- Claim C5 (counterexample to the claim as stated): an update carrying a
new position with zero elapsed time OVERWRITES the track's previous velocity
⟨100, 0, 0⟩ with the zero vector; the velocity is not left at its previous
value. -/
theorem velocity_not_preserved_on_zero_dt :
    (mergeExistingTrack demoTrack demoUpdatePos 50000).velocity ≠ demoTrack.velocity := by
  rw [merge_velocity_zero]
  intro h
  have hx := congrArg Vector3D.x h
  simp only [demoTrack] at hx
  norm_num at hx

/-- Claim C5 (amended): when an update carries a new position and the
elapsed wall-clock time since the track's previous observation is ≤ 0, the
merged track's velocity is recomputed as the ZERO vector — overwriting, not
preserving, the previous value — as the guard against out-of-order or
duplicate messages. -/
theorem velocity_zeroed_on_nonpositive_dt (existing : RadarTrack) (td : RadarTrackUpdate)
    (now : ℚ) (p : Position3D) (hp : td.position = some p)
    (h : now ≤ existing.lastUpdate) :
    (mergeExistingTrack existing td now).velocity = ⟨0, 0, 0⟩ := by
  unfold mergeExistingTrack
  rw [hp]
  dsimp only
  unfold calculateVelocity
  rw [if_pos (div_nonpos_iff.mpr (Or.inr ⟨sub_nonpos.mpr h, by norm_num⟩))]

/-- Witness for C5 at the concrete track and same-instant update. -/
theorem velocity_zeroed_on_nonpositive_dt_witness :
    (demoUpdatePos.position = some ⟨1, 1, 6000, 50000⟩ ∧
      (50000 : ℚ) ≤ demoTrack.lastUpdate) ∧
    (mergeExistingTrack demoTrack demoUpdatePos 50000).velocity = ⟨0, 0, 0⟩ :=
  ⟨⟨rfl, by norm_num [demoTrack]⟩,
    velocity_zeroed_on_nonpositive_dt demoTrack demoUpdatePos 50000 _ rfl
      (by norm_num [demoTrack])⟩

theorem demo_cached_ts0 : demoCachedTrajectory.timeStamps.getD 0 0 = 0 := by
  unfold demoCachedTrajectory predictTrajectory
  dsimp only
  rw [stdDefault_numSamples, getD_map_range _ _ (by norm_num)]
  norm_num [demoAC7old, demoAC1]

theorem demo_cache_valid :
    isTrajectoryValid 20000 demoCachedTrajectory demoAC7new = true := by
  unfold isTrajectoryValid
  rw [demo_cached_ts0]
  exact decide_eq_true (by norm_num)

/-- Claim C7 (counterexample to the claim as stated): AAL7's cached
trajectory was computed from the position observed at time 0; the track then
received a new position at 10000 ms; at the next cycle (clock 20000 ms) the
cache is nevertheless deemed valid and the cached prediction is reused — the
new position did not invalidate it. -/
theorem cached_trajectory_reused_after_new_position :
    (generateTrajectoryPredictions stdDefault 20000 [("AAL7", demoCachedTrajectory)]
      [demoAC7new]).1 = [("AAL7", demoCachedTrajectory)] ∧
    demoCachedTrajectory.timeStamps.getD 0 0 = 0 ∧
    demoAC7new.lastUpdate = 10000 ∧
    isTrajectoryValid 20000 demoCachedTrajectory demoAC7new = true := by
  refine ⟨?_, demo_cached_ts0, rfl, demo_cache_valid⟩
  unfold generateTrajectoryPredictions
  simp only [List.foldl]
  unfold genStep trajectoryStep
  rw [show assocLookup [("AAL7", demoCachedTrajectory)] demoAC7new.callsign =
      some demoCachedTrajectory from rfl]
  dsimp only
  rw [demo_cache_valid]
  rfl

theorem assocLookup_map_replace_ne {κ α : Type _} [DecidableEq κ] (m : List (κ × α))
    (k k2 : κ) (v : α) (h : k ≠ k2) :
    assocLookup (m.map (fun p => if p.1 = k then (k, v) else p)) k2 = assocLookup m k2 := by
  induction m with
  | nil => rfl
  | cons p ps ih =>
    unfold assocLookup at ih ⊢
    by_cases hp : p.1 = k
    · rw [List.map_cons, if_pos hp]
      rw [List.find?_cons_of_neg _ (by simp [h]),
        List.find?_cons_of_neg _ (by simp [hp, h])]
      exact ih
    · rw [List.map_cons, if_neg hp]
      by_cases hp2 : p.1 = k2
      · rw [List.find?_cons_of_pos _ (by simp [hp2])]
        rw [List.find?_cons_of_pos _ (by simp [hp2])]
      · rw [List.find?_cons_of_neg _ (by simp [hp2]),
          List.find?_cons_of_neg _ (by simp [hp2])]
        exact ih

theorem assocLookup_set_ne {κ α : Type _} [DecidableEq κ] (m : List (κ × α)) (k k2 : κ)
    (v : α) (h : k ≠ k2) : assocLookup (assocSet m k v) k2 = assocLookup m k2 := by
  unfold assocSet
  by_cases hany : m.any (fun p => decide (p.1 = k))
  · rw [if_pos hany]
    exact assocLookup_map_replace_ne m k k2 v h
  · rw [if_neg hany]
    unfold assocLookup
    rw [List.find?_append]
    cases hf : List.find? (fun p => decide (p.1 = k2)) m with
    | some q => rfl
    | none =>
      rw [List.find?_cons_of_neg _ (by simp [h]), List.find?_nil]
      rfl

theorem trajectoryStep_cache_lookup (std : ConflictParameters) (now : ℚ)
    (cache : List (String × TrajectoryPrediction)) (ac : Aircraft) (cs : String)
    (h : ac.callsign ≠ cs) :
    assocLookup (trajectoryStep std now cache ac).2 cs = assocLookup cache cs := by
  unfold trajectoryStep
  cases hl : assocLookup cache ac.callsign with
  | none =>
    dsimp only
    exact assocLookup_set_ne cache ac.callsign cs _ h
  | some c =>
    dsimp only
    cases hv : isTrajectoryValid now c ac with
    | true => rw [if_pos rfl]
    | false =>
      rw [if_neg (by simp)]
      exact assocLookup_set_ne cache ac.callsign cs _ h

theorem genFold_cache_only (std : ConflictParameters) (now : ℚ) (l : List Aircraft) :
    ∀ (preds cache : List (String × TrajectoryPrediction)),
      (l.foldl (genStep std now) (preds, cache)).2 =
      (l.foldl (genStep std now) ([], cache)).2 := by
  induction l with
  | nil =>
    intro preds cache
    rfl
  | cons ac acs ih =>
    intro preds cache
    rw [List.foldl_cons, List.foldl_cons]
    rw [show genStep std now (preds, cache) ac =
      (assocSet preds ac.callsign (trajectoryStep std now cache ac).1,
        (trajectoryStep std now cache ac).2) from rfl]
    rw [show genStep std now ([], cache) ac =
      (assocSet [] ac.callsign (trajectoryStep std now cache ac).1,
        (trajectoryStep std now cache ac).2) from rfl]
    exact (ih _ _).trans (ih _ _).symm

/-- Claim C7 (amended): a cached trajectory is reused exactly when its first
sample timestamp is under 30 s old relative to the cycle clock — receiving a
new position does NOT invalidate it within that window — and recomputation
touches only that track's cache entry: cache entries of callsigns not in
the processed aircraft list are left unchanged. -/
theorem trajectory_cache_window_and_locality :
    (∀ (std : ConflictParameters) (now : ℚ) (cache : List (String × TrajectoryPrediction))
        (ac : Aircraft) (c : TrajectoryPrediction),
      assocLookup cache ac.callsign = some c →
      (now - c.timeStamps.getD 0 0 < 30000 → trajectoryStep std now cache ac = (c, cache)) ∧
      (¬ now - c.timeStamps.getD 0 0 < 30000 →
        trajectoryStep std now cache ac =
          (predictTrajectory std now ac,
            assocSet cache ac.callsign (predictTrajectory std now ac)))) ∧
    (∀ (std : ConflictParameters) (now : ℚ) (cache : List (String × TrajectoryPrediction))
        (aircraft : List Aircraft) (cs : String),
      (∀ ac ∈ aircraft, ac.callsign ≠ cs) →
      assocLookup (generateTrajectoryPredictions std now cache aircraft).2 cs =
        assocLookup cache cs) := by
  constructor
  · intro std now cache ac c hl
    constructor
    · intro hw
      unfold trajectoryStep
      rw [hl]
      dsimp only
      rw [if_pos (show isTrajectoryValid now c ac = true from decide_eq_true hw)]
    · intro hw
      unfold trajectoryStep
      rw [hl]
      dsimp only
      rw [if_neg (show ¬ isTrajectoryValid now c ac = true from by
        unfold isTrajectoryValid
        simp only [decide_eq_true_eq]
        exact hw)]
  · intro std now cache aircraft
    induction aircraft generalizing cache with
    | nil =>
      intro cs _
      rfl
    | cons ac acs ih =>
      intro cs hcs
      unfold generateTrajectoryPredictions
      rw [List.foldl_cons]
      rw [show genStep std now ([], cache) ac =
        (assocSet [] ac.callsign (trajectoryStep std now cache ac).1,
          (trajectoryStep std now cache ac).2) from rfl]
      rw [genFold_cache_only std now acs _ _]
      have htail := ih (trajectoryStep std now cache ac).2 cs
        (fun a ha => hcs a (List.mem_cons_of_mem ac ha))
      unfold generateTrajectoryPredictions at htail
      rw [htail]
      exact trajectoryStep_cache_lookup std now cache ac cs
        (hcs ac (List.mem_cons_self ac acs))

/-- Witness for C7 at the cached AAL7 trajectory and an uninvolved callsign. -/
theorem trajectory_cache_window_and_locality_witness :
    (assocLookup [("AAL7", demoCachedTrajectory)] demoAC7new.callsign =
        some demoCachedTrajectory ∧
      (20000 : ℚ) - demoCachedTrajectory.timeStamps.getD 0 0 < 30000 ∧
      trajectoryStep stdDefault 20000 [("AAL7", demoCachedTrajectory)] demoAC7new =
        (demoCachedTrajectory, [("AAL7", demoCachedTrajectory)])) ∧
    ((∀ ac ∈ [demoAC7new], ac.callsign ≠ "UAL5") ∧
      assocLookup (generateTrajectoryPredictions stdDefault 20000
          [("AAL7", demoCachedTrajectory)] [demoAC7new]).2 "UAL5" =
        assocLookup [("AAL7", demoCachedTrajectory)] "UAL5") := by
  have hw : (20000 : ℚ) - demoCachedTrajectory.timeStamps.getD 0 0 < 30000 := by
    rw [demo_cached_ts0]
    norm_num
  have hcs : ∀ ac ∈ [demoAC7new], ac.callsign ≠ "UAL5" := by
    intro ac ha
    rw [List.mem_singleton] at ha
    subst ha
    decide
  exact ⟨⟨rfl, hw,
      (trajectory_cache_window_and_locality.1 stdDefault 20000
        [("AAL7", demoCachedTrajectory)] demoAC7new demoCachedTrajectory rfl).1 hw⟩,
    ⟨hcs, trajectory_cache_window_and_locality.2 stdDefault 20000
      [("AAL7", demoCachedTrajectory)] [demoAC7new] "UAL5" hcs⟩⟩

theorem assocDelete_preserves_not_mem {κ α : Type _} [DecidableEq κ]
    (m : List (κ × α)) (x y : κ) (h : x ∉ m.map (·.1)) :
    x ∉ (assocDelete m y).map (·.1) := by
  intro hx
  apply h
  obtain ⟨p, hp, hpx⟩ := List.mem_map.mp hx
  exact List.mem_map.mpr ⟨p, (List.mem_filter.mp hp).1, hpx⟩

theorem assocDelete_self_not_mem {κ α : Type _} [DecidableEq κ]
    (m : List (κ × α)) (y : κ) : y ∉ (assocDelete m y).map (·.1) := by
  intro hy
  obtain ⟨p, hp, hpy⟩ := List.mem_map.mp hy
  have hne := of_decide_eq_true (List.mem_filter.mp hp).2
  exact hne hpy

theorem foldl_delete_preserves {κ α β : Type _} [DecidableEq κ] (f : β → κ)
    (l : List β) (m : List (κ × α)) (x : κ) (h : x ∉ m.map (·.1)) :
    x ∉ ((l.foldl (fun acc q => assocDelete acc (f q)) m).map (·.1)) := by
  induction l generalizing m with
  | nil => exact h
  | cons y ys ih => exact ih _ (assocDelete_preserves_not_mem _ _ _ h)

theorem foldl_delete_not_mem {κ α β : Type _} [DecidableEq κ] (f : β → κ)
    (l : List β) (m : List (κ × α)) (b : β) (hb : b ∈ l) :
    f b ∉ ((l.foldl (fun acc q => assocDelete acc (f q)) m).map (·.1)) := by
  induction l generalizing m with
  | nil => simp at hb
  | cons x xs ih =>
    rw [List.foldl_cons]
    rcases List.mem_cons.mp hb with rfl | hb2
    · exact foldl_delete_preserves f xs _ _ (assocDelete_self_not_mem m (f b))
    · exact ih _ hb2

/-- Claim C4 (amended): staleness removal happens only when a maintenance
sweep runs: a sweep at time `now` keeps every track entry whose age is
≤ 60 s and removes every entry whose age is > 60 s together with its
aircraft-map key; `getAircraftPositions` itself performs no staleness check,
so between sweeps a stale track remains visible in snapshots. -/
theorem sweepStale_boundary (now : ℚ) (st : RadarState) (k : ℕ) (tr : RadarTrack)
    (hmem : (k, tr) ∈ st.radarTracks) :
    (now - tr.lastUpdate ≤ 60000 → (k, tr) ∈ (sweepStale now st).radarTracks) ∧
    (now - tr.lastUpdate > 60000 →
      (k, tr) ∉ (sweepStale now st).radarTracks ∧
      trackAircraftKey tr ∉ ((sweepStale now st).aircraftMap.map (·.1))) := by
  constructor
  · intro h
    unfold sweepStale
    dsimp only
    rw [List.mem_filter]
    refine ⟨hmem, ?_⟩
    rw [decide_eq_false (not_lt.mpr h)]
    rfl
  · intro h
    constructor
    · unfold sweepStale
      dsimp only
      rw [List.mem_filter]
      rintro ⟨-, hcond⟩
      rw [decide_eq_true h] at hcond
      simp at hcond
    · unfold sweepStale
      dsimp only
      exact foldl_delete_not_mem (fun (q : ℕ × RadarTrack) => trackAircraftKey q.2)
        _ _ (k, tr) (List.mem_filter.mpr ⟨hmem, decide_eq_true h⟩)

/-- Witness for C4 at a concrete state holding one fresh and one stale
track, swept at 70000 ms. -/
theorem sweepStale_boundary_witness :
    ((1, demoTrackFresh) ∈ demoRadarState.radarTracks ∧
      (70000 : ℚ) - demoTrackFresh.lastUpdate ≤ 60000 ∧
      (1, demoTrackFresh) ∈ (sweepStale 70000 demoRadarState).radarTracks) ∧
    ((2, demoTrackStale) ∈ demoRadarState.radarTracks ∧
      (70000 : ℚ) - demoTrackStale.lastUpdate > 60000 ∧
      (2, demoTrackStale) ∉ (sweepStale 70000 demoRadarState).radarTracks ∧
      trackAircraftKey demoTrackStale ∉
        ((sweepStale 70000 demoRadarState).aircraftMap.map (·.1))) := by
  have hm1 : (1, demoTrackFresh) ∈ demoRadarState.radarTracks :=
    List.mem_cons_self _ _
  have hm2 : (2, demoTrackStale) ∈ demoRadarState.radarTracks :=
    List.mem_cons_of_mem _ (List.mem_cons_self _ _)
  have ha1 : (70000 : ℚ) - demoTrackFresh.lastUpdate ≤ 60000 := by
    norm_num [demoTrackFresh, demoTrack]
  have ha2 : (70000 : ℚ) - demoTrackStale.lastUpdate > 60000 := by
    norm_num [demoTrackStale, demoTrack]
  obtain ⟨hs2a, hs2b⟩ := (sweepStale_boundary 70000 demoRadarState 2 demoTrackStale hm2).2 ha2
  exact ⟨⟨hm1, ha1, (sweepStale_boundary 70000 demoRadarState 1 demoTrackFresh hm1).1 ha1⟩,
    ⟨hm2, ha2, hs2a, hs2b⟩⟩

theorem demo_apply :
    (applyTrackUpdate ⟨[], []⟩ demoCreate 5000).1 =
      ⟨[(7, createTrack 7 demoCreate 5000)],
        [("AAL9", trackToAircraft (createTrack 7 demoCreate 5000))]⟩ := by
  unfold applyTrackUpdate
  dsimp only
  rw [show updateRadarTrack [] demoCreate 5000 = [(7, createTrack 7 demoCreate 5000)]
    from rfl]
  unfold convertTracksToAircraft
  rw [List.foldl_cons]
  rw [if_neg (show ¬ ((5000 : ℚ) -
      ((7, createTrack 7 demoCreate 5000) : ℕ × RadarTrack).2.lastUpdate) / 1000 > 30
    by norm_num [createTrack])]
  rfl

theorem demo_sweep_keep (t : ℚ)
    (h : ¬ t - ((7, createTrack 7 demoCreate 5000) : ℕ × RadarTrack).2.lastUpdate > 60000) :
    sweepStale t ⟨[(7, createTrack 7 demoCreate 5000)],
        [("AAL9", trackToAircraft (createTrack 7 demoCreate 5000))]⟩ =
      ⟨[(7, createTrack 7 demoCreate 5000)],
        [("AAL9", trackToAircraft (createTrack 7 demoCreate 5000))]⟩ := by
  unfold sweepStale
  dsimp only
  rw [show List.filter (fun p => decide
      (t - (p : ℕ × RadarTrack).2.lastUpdate > 60000))
      [(7, createTrack 7 demoCreate 5000)] = [] from by
    rw [List.filter_cons_of_neg (by simp only [decide_eq_true_eq]; exact h)]
    rfl]
  rw [show List.filter (fun p => !decide
      (t - (p : ℕ × RadarTrack).2.lastUpdate > 60000))
      [(7, createTrack 7 demoCreate 5000)] = [(7, createTrack 7 demoCreate 5000)] from by
    rw [List.filter_cons_of_pos (by
      rw [decide_eq_false h]
      rfl)]
    rfl]
  rfl

/-- Claim C4 (counterexample to the claim as stated): a track created at
5000 ms survives the maintenance sweeps at 30000 ms and at 60000 ms (its age
there, 55 s, does not exceed 60 s), so the snapshot state that a
`getAircraftPositions` read at 70000 ms — a time beyond t0 + 60 s, before
the next sweep at 90000 ms — observes still contains the track: it is not
absent from every snapshot read at or after t0 + the staleness bound. -/
theorem stale_track_visible_after_bound :
    (snapshotAircraft (sweepStale 60000 (sweepStale 30000
      (applyTrackUpdate ⟨[], []⟩ demoCreate 5000).1))).map (·.callsign) = ["AAL9"] := by
  rw [demo_apply, demo_sweep_keep 30000 (by norm_num [createTrack]),
    demo_sweep_keep 60000 (by norm_num [createTrack])]
  rfl

end ATC

